import Mathlib

/-!
# Message grouping of the bugvolution chat module

A shallow embedding of `src/scripts/message.js` (class `AbstractMessage`) and
`src/scripts/ic.js` (class `InCharacterMessage`), followed by theorems about the
continuation and grouping logic.

Conventions of the embedding.

* A JavaScript property that may be `undefined` or `null` is an `Option`; the two
  absent values are not told apart.
* Truthiness is explicit: an absent value and the empty string are falsy, an
  array is truthy even when it is empty.
* `===` on strings and on absent values is equality of the `Option` values.
* `console.warn` is modelled by returning the list of lines written.
* A call that raises returns `Except.error`, with the element as it is at that
  point; a call that returns gives `Except.ok`.
* `String.prototype.localeCompare` belongs to the host and is a parameter.
* Object identity of chat messages (used by `Array.prototype.indexOf`) is the
  `id` field of a message.
-/

namespace Bugvolution

/-! ## Host data -/

/-- The host enumeration `CHAT_MESSAGE_TYPES` of message kinds. -/
inductive CHAT_MESSAGE_TYPES where
  | OTHER
  | OOC
  | IC
  | EMOTE
  | WHISPER
  | ROLL
  deriving DecidableEq, Repr

/-- The speaker descriptor `data.speaker` of a chat message. -/
structure Speaker where
  token : Option String
  actor : Option String
  «alias» : Option String
  deriving DecidableEq, Repr

/-- The record `chatMessage.data`. -/
structure MessageData where
  type : CHAT_MESSAGE_TYPES
  speaker : Speaker
  user : Option String
  whisper : Option (List String)
  forceLeading : Bool
  deriving DecidableEq, Repr

/-- A user document; only its `id` is read. -/
structure User where
  id : String
  deriving DecidableEq, Repr

/-- A chat message of the host. `whisperTargets` is the value of
`getFlag("bugwhisper", "whisperTargets")`, `BetterRollsCardBinding` tells whether
that property is set. -/
structure ChatMessage where
  id : String
  data : MessageData
  user : User
  visible : Bool
  whisperTargets : Option (List String)
  BetterRollsCardBinding : Bool
  deriving DecidableEq, Repr

/-- The part `token.data` (and `actor.data.token`) of a token: its image. -/
structure TokenData where
  img : String
  deriving DecidableEq, Repr

/-- The token of an actor. -/
structure Token where
  data : TokenData
  deriving DecidableEq, Repr

/-- The record `actor.data`. -/
structure ActorData where
  token : TokenData
  deriving DecidableEq, Repr

/-- An actor of the host directory. -/
structure Actor where
  id : String
  name : String
  token : Option Token
  data : ActorData
  deriving DecidableEq, Repr

/-- The actor directory `game.actors`: the table `tokens` keyed by token id and the
entries that `get` and `forEach` range over. -/
structure Actors where
  tokens : List (String × Actor)
  entries : List Actor
  deriving Repr

/-- The part of the global `game` that the module reads. `portraitSize` is
`game.settings.get("ChatPortrait", "portraitSize")`. -/
structure Game where
  actors : Actors
  messages : List ChatMessage
  user : User
  portraitSize : Nat
  deriving Repr

/-- The record `messageData.message`. -/
structure MessageRecord where
  speaker : Speaker
  timestamp : Nat
  content : String
  deriving DecidableEq, Repr

/-- A value passed as `names` to `getWhisperTargets`: absent, a string, or an array
of strings. -/
inductive Names where
  | absent
  | str (s : String)
  | arr (names : List String)
  deriving DecidableEq, Repr

/-- The third argument `messageData` of `process`. -/
structure RenderMessageData where
  message : MessageRecord
  «alias» : String
  whisperTo : Names
  deriving DecidableEq, Repr

/-- The record `renderData` handed to the template. -/
structure RenderData where
  avatar : String
  timestamp : Nat
  speaker : String
  content : String
  whisperTo : String
  isWhisper : Bool
  isRoll : Bool
  isContinuation : Bool
  deriving DecidableEq, Repr

/-- The jQuery element of a message, as far as `process` reads and changes it: the
class list, the inline style, whether it holds a `.dnd5e.red-full` element and
whether it holds a `.whisper-to` element. -/
structure Html where
  classes : List String
  style : Option String
  dnd5eRedFull : Bool
  whisperToElement : Bool
  deriving DecidableEq, Repr

/-- What surrounds a call of `process`: the global `game`, the two module settings
`ModuleOptions.LITE_MODE` and `ModuleOptions.BLUE_ME`, `ModulesHelper.chatPortrait`,
the host method `String.prototype.localeCompare` and the host function
`renderTemplate`. The comparison of the host depends on its locale and returns `0`
also for some strings that are not the same, so it is not computed here. -/
structure Env where
  game : Game
  LITE_MODE : Bool
  BLUE_ME : Bool
  chatPortrait : Bool
  localeCompare : String → String → Int
  renderTemplate : String → RenderData → String

/-! ## JavaScript helpers -/

/-- Truthiness of an optional string: absent and empty are falsy. -/
def truthy : Option String → Bool
  | some s => s != ""
  | none => false

/-- Modelled from the spec: `arrayEquals` of `utils.js`, which is not among the
source files. The spec calls it ordered-sequence equality: two sequences are the
same when they have the same entries in the same order. -/
def arrayEquals (a b : List String) : Bool :=
  decide (a = b)

/-! ## `AbstractMessage` (message.js) -/

/-- The line `console.warn` writes for `_warn(content)`. -/
def _warn (content : String) : List String :=
  ["MESSAGE GROUPING | " ++ content]

/-- The method `_addClass`: jQuery `addClass` appends a class that the element does
not have yet. -/
def _addClass (html : Html) (className : String) : Html :=
  if className ∈ html.classes then html
  else { html with classes := html.classes ++ [className] }

/-- The method `loadActorForChatMessage`: by token id, then by actor id, then the
last actor of the directory whose name is the speaker alias. The table
`game.actors.tokens` is read as a table of token ids: a token id is taken not to be
the name of a member that every JavaScript object inherits. -/
def loadActorForChatMessage (game : Game) (messageData : RenderMessageData) : Option Actor :=
  let speaker := messageData.message.speaker
  let actor : Option Actor :=
    if truthy speaker.token then
      match speaker.token with
      | some t => game.actors.tokens.lookup t
      | none => none
    else none
  let actor : Option Actor :=
    if actor.isNone then
      match speaker.actor with
      | some a => game.actors.entries.find? (fun value => value.id == a)
      | none => none
    else actor
  let actor : Option Actor :=
    if actor.isNone then
      game.actors.entries.foldl
        (fun found value => if some value.name = speaker.alias then some value else found) actor
    else actor
  actor

/-- The method `getChatTokenImage`. -/
def getChatTokenImage (actor : Option Actor) : String :=
  match actor with
  | some a =>
    match a.token with
    | some t => t.data.img
    | none => a.data.token.img
  | none => ""

/-- The method `getWhisperTargets`, over the comparison `localeCompare` of the host:
`names.localeCompare(speaker)` is `localeCompare names speaker`. -/
def getWhisperTargets (localeCompare : String → String → Int) (names : Names)
    (speaker : String) : String :=
  match names with
  | Names.str s =>
    if localeCompare s speaker ≠ 0 then " (To " ++ s ++ ")" else ""
  | Names.arr l =>
    let namesString :=
      String.intercalate "," (l.filter (fun name => decide (localeCompare name speaker = 0)))
    " (To " ++ namesString ++ ")"
  | Names.absent => ""

/-! ## `InCharacterMessage` (ic.js) -/

/-- The table `CLASS_NAMES`. -/
def CLASS_NAMES.MODIFIED : String := "modified"

/-- The class of the roll interface. -/
def CLASS_NAMES.ROLL_UI : String := "roll-ui"

/-- The class of the lite interface. -/
def CLASS_NAMES.LITE_UI : String := "lite-ui"

/-- The class of the first message in a group of messages. -/
def CLASS_NAMES.LEADING : String := "leading"

/-- The class of all messages following. -/
def CLASS_NAMES.CONTINUED : String := "continued"

/-- The class of a roll. -/
def CLASS_NAMES.ROLL : String := "roll"

/-- The class of a message of the current player. -/
def CLASS_NAMES.ME : String := "me"

/-- The table `TEMPLATES`. -/
def TEMPLATES.CHAT_MESSAGE : String := "modules/bugvolution/templates/chat_message.hbs"

/-- The speaker alias that the `/desc` command of another module gives its messages. -/
def CGMP_DESCRIPTION : String := "#CGMP_DESCRIPTION"

/-- The method `isDiceRollTemplate`. -/
def isDiceRollTemplate (_chatMessage : ChatMessage) (html : Html) : Bool :=
  html.dnd5eRedFull

/-- The method `isRerenderableType`. -/
def isRerenderableType (chatMessage : ChatMessage) : Bool :=
  let groupableMessageTypes := [
    CHAT_MESSAGE_TYPES.OOC,
    CHAT_MESSAGE_TYPES.IC,
    CHAT_MESSAGE_TYPES.WHISPER,
    CHAT_MESSAGE_TYPES.OTHER,
    CHAT_MESSAGE_TYPES.ROLL]
  groupableMessageTypes.contains chatMessage.data.type
    && decide (chatMessage.data.speaker.alias ≠ some CGMP_DESCRIPTION)

/-- The method `isValidGroupableType`. -/
def isValidGroupableType (chatMessage : ChatMessage) : Bool :=
  let groupableMessageTypes :=
    [CHAT_MESSAGE_TYPES.OOC, CHAT_MESSAGE_TYPES.IC, CHAT_MESSAGE_TYPES.WHISPER]
  groupableMessageTypes.contains chatMessage.data.type
    && decide (chatMessage.data.speaker.alias ≠ some CGMP_DESCRIPTION)

/-- The method `getRealWhisperTargets`. -/
def getRealWhisperTargets (chatMessage : ChatMessage) : Option (List String) :=
  chatMessage.whisperTargets

/-- The method `isFromTheSameActor`, on the `data` records of two messages. -/
def isFromTheSameActor (prevMessage nextMessage : MessageData) : Bool :=
  let prevSpeaker := prevMessage.speaker
  let nextSpeaker := nextMessage.speaker
  let isWhisper := decide (nextMessage.type = CHAT_MESSAGE_TYPES.WHISPER)
  let isOOC := decide (nextMessage.type = CHAT_MESSAGE_TYPES.OOC)
  if truthy prevSpeaker.token || truthy nextSpeaker.token then
    decide (prevSpeaker.token = nextSpeaker.token)
  else if truthy prevSpeaker.alias || truthy nextSpeaker.alias then
    decide (prevSpeaker.alias = nextSpeaker.alias)
  else if isWhisper || isOOC then
    decide (prevMessage.user = nextMessage.user)
  else
    false

/-- The method `sameWhisperRecipients`: the result and the lines written to the
console. -/
def sameWhisperRecipients (prevMessage nextMessage : ChatMessage) : Bool × List String :=
  match prevMessage.data.whisper, nextMessage.data.whisper with
  | some prevWhispers, some nextWhispers =>
    let prevRealWhisperTargets := getRealWhisperTargets prevMessage
    let nextRealWhisperTargets := getRealWhisperTargets nextMessage
    let realEqual :=
      match prevRealWhisperTargets, nextRealWhisperTargets with
      | some p, some n => arrayEquals p n
      | _, _ => true
    (realEqual && arrayEquals prevWhispers nextWhispers, [])
  | _, _ => (false, _warn "WHISPER PROPERTY OF CHAT MESSAGE NOT FOUND")

/-- The method `isContinuationFromPreviousMessage`: the result and the lines written
to the console. The three constants are computed before they are combined, so the
recipients are compared whatever the other two are. -/
def isContinuationFromPreviousMessage (prevMessage nextMessage : ChatMessage) :
    Bool × List String :=
  let isTheSameGroupableType := decide (prevMessage.data.type = nextMessage.data.type)
  let isFromTheSameActor := isFromTheSameActor prevMessage.data nextMessage.data
  let sameWhisperRecipients := sameWhisperRecipients prevMessage nextMessage
  (isFromTheSameActor && sameWhisperRecipients.1 && isTheSameGroupableType,
    sameWhisperRecipients.2)

/-- The call `messages.indexOf(chatMessage)`, counted from position `k`: the first
position that holds the same message object, or `-1`. -/
def indexOfFrom (chatMessage : ChatMessage) : List ChatMessage → Nat → Int
  | [], _ => -1
  | m :: rest, k =>
    if m.id = chatMessage.id then (k : Int) else indexOfFrom chatMessage rest (k + 1)

/-- The loop of `loadPreviousMessage`, entered with `index`: it runs while
`index - 1 >= 0`. The position `index - 1` is always inside the log, since `index`
starts at a position of the log. -/
def loadPreviousMessageLoop (messages : List ChatMessage) : Nat → Option ChatMessage
  | 0 => none
  | index + 1 =>
    match messages[index]? with
    | some previous =>
      if previous.visible then some previous else loadPreviousMessageLoop messages index
    | none => none

/-- The method `loadPreviousMessage`. -/
def loadPreviousMessage (game : Game) (chatMessage : ChatMessage) : Option ChatMessage :=
  let messages := game.messages
  let index := indexOfFrom chatMessage messages 0
  loadPreviousMessageLoop messages index.toNat

/-- The method `isMe`. -/
def isMe (game : Game) (chatMessage : ChatMessage) : Bool :=
  decide (chatMessage.data.user = some game.user.id)

/-- The function `formatWhisperLite`. -/
def formatWhisperLite (string : String) : String :=
  if string ≠ "" then "To: " ++ string else ""

/-- The function `formatWhisperNonLite`. -/
def formatWhisperNonLite (string : String) : String :=
  if string ≠ "" then " (To " ++ string ++ ")" else ""

/-- What a call of `process` that returns leaves behind. `html` is the element with
its final class list and style, `renderData` the record built for the template,
`previousMessage` the local constant of the continuation block (`none` when the
block is not entered, `some r` when `loadPreviousMessage` was called and gave `r`),
`console` the lines written by `_warn`, `renderedHTML` the markup that replaces the
content of the message when it is rendered again, `rollContentRestored` and
`bindingUpdated` the two steps that follow that rendering, `portrait` the image
(source and size) put before the header, and `whisperString` the label written
into the `.whisper-to` element in lite mode. -/
structure ProcessResult where
  html : Html
  renderData : RenderData
  previousMessage : Option (Option ChatMessage)
  console : List String
  renderedHTML : Option String
  rollContentRestored : Bool
  bindingUpdated : Bool
  portrait : Option (String × Nat)
  whisperString : Option String
  deriving DecidableEq, Repr

/-- What a call of `process` that raises leaves behind: the error and the element as
it is when the error is raised. -/
structure Raised where
  error : String
  html : Html
  deriving DecidableEq, Repr

/-- The method `process`. The avatar is `this.getChatTokenImage(actor) ||
this.getUserImage(user)`, and neither `InCharacterMessage` nor `AbstractMessage`
defines `getUserImage`: when the token image is empty the call of the missing method
raises a `TypeError`, after the class of the interface is added and before any
other class is. -/
def process (env : Env) (chatMessage : ChatMessage) (html : Html)
    (messageData : RenderMessageData) : Except Raised ProcessResult :=
  let isLiteMode := env.LITE_MODE
  let html :=
    if isLiteMode then _addClass html CLASS_NAMES.LITE_UI
    else _addClass html CLASS_NAMES.ROLL_UI
  let actor := loadActorForChatMessage env.game messageData
  let _user :=
    match chatMessage.data.user with
    | some u => if u ≠ "" then u else chatMessage.user.id
    | none => chatMessage.user.id
  let isWhisper := decide (chatMessage.data.type = CHAT_MESSAGE_TYPES.WHISPER)
  let isDiceRoll := decide (chatMessage.data.type = CHAT_MESSAGE_TYPES.ROLL)
  let isRerenderableType := isRerenderableType chatMessage
  let isRollTemplate := isDiceRollTemplate chatMessage html
  let isRoll := isRollTemplate || isDiceRoll
  let isValidGroupableType := isValidGroupableType chatMessage
  if getChatTokenImage actor = "" then
    Except.error { error := "TypeError: this.getUserImage is not a function", html := html }
  else
    let avatar := getChatTokenImage actor
    let isMe := isMe env.game chatMessage
    let realWhisperTargets := getRealWhisperTargets chatMessage
    let whisperTo :=
      match realWhisperTargets with
      | some targets =>
        if targets.length > 0 then Names.arr targets else messageData.whisperTo
      | none => messageData.whisperTo
    let whisperTargets := getWhisperTargets env.localeCompare whisperTo messageData.alias
    let html := if isRerenderableType then _addClass html CLASS_NAMES.MODIFIED else html
    let html := if isRoll then _addClass html CLASS_NAMES.ROLL else html
    let html := if isMe && env.BLUE_ME then _addClass html CLASS_NAMES.ME else html
    let html := if isValidGroupableType then { html with style := none } else html
    -- ADD CONTINUATION CLASS
    let continuation : Bool × Option (Option ChatMessage) × List String :=
      if !chatMessage.data.forceLeading && isValidGroupableType then
        match loadPreviousMessage env.game chatMessage with
        | some previousMessage =>
          let result := isContinuationFromPreviousMessage previousMessage chatMessage
          (result.1, some (some previousMessage), result.2)
        | none => (false, some none, [])
      else (false, none, [])
    let isContinuation := continuation.1
    let renderData : RenderData := {
      avatar := avatar,
      timestamp := messageData.message.timestamp,
      speaker := messageData.alias,
      content := messageData.message.content,
      whisperTo := formatWhisperNonLite whisperTargets,
      isWhisper := isWhisper,
      isRoll := isRoll,
      isContinuation := isContinuation }
    let html :=
      if isContinuation then _addClass html CLASS_NAMES.CONTINUED
      else _addClass html CLASS_NAMES.LEADING
    let rerender := !isLiteMode && isRerenderableType
    let portrait :=
      if isLiteMode && env.chatPortrait then
        if actor.isNone && decide (avatar ≠ "") then some (avatar, env.game.portraitSize)
        else none
      else none
    Except.ok {
      html := if isLiteMode then { html with whisperToElement := true } else html,
      renderData := renderData,
      previousMessage := continuation.2.1,
      console := continuation.2.2,
      renderedHTML :=
        if rerender then some (env.renderTemplate TEMPLATES.CHAT_MESSAGE renderData) else none,
      rollContentRestored := rerender && isRollTemplate,
      bindingUpdated := rerender && chatMessage.BetterRollsCardBinding,
      portrait := portrait,
      whisperString := if isLiteMode then some (formatWhisperLite whisperTargets) else none }

/-! ## Sample data -/

/-- A visible message with identity `id`, kind `type`, speaker token `token`, speaker
alias `name`, author `user`, recipients `whisper` and real targets `real`;
`forceLeading` is unset. -/
def sampleMessage (id : String) (type : CHAT_MESSAGE_TYPES) (token name : Option String)
    (user : String) (whisper real : Option (List String)) : ChatMessage :=
  { id := id,
    data := {
      type := type,
      speaker := { token := token, actor := none, «alias» := name },
      user := some user,
      whisper := whisper,
      forceLeading := false },
    user := { id := user },
    visible := true,
    whisperTargets := real,
    BetterRollsCardBinding := false }

/-- The message `m` marked hidden. -/
def hidden (m : ChatMessage) : ChatMessage :=
  { m with visible := false }

/-- The message `m` with `forceLeading` set. -/
def forced (m : ChatMessage) : ChatMessage :=
  { m with data := { m.data with forceLeading := true } }

/-- A game without actors whose log is `messages`, played by user `"gm"`. -/
def sampleGame (messages : List ChatMessage) : Game :=
  { actors := { tokens := [], entries := [] },
    messages := messages,
    user := { id := "gm" },
    portraitSize := 36 }

/-- The message `m` with the actor id `actor` in its speaker. -/
def spokenBy (actor : String) (m : ChatMessage) : ChatMessage :=
  { m with data := { m.data with speaker := { m.data.speaker with actor := some actor } } }

/-- An actor "Bob" with identity `a1`, no token of its own and the prototype token
image `bob.png`. -/
def sampleActor : Actor :=
  { id := "a1", name := "Bob", token := none, data := { token := { img := "bob.png" } } }

/-- A game whose directory holds `sampleActor` alone, which the token ids `t1` and
`t2`, the actor id `a1` and the name `Bob` lead to; its log is `messages` and its
user is `"gm"`. -/
def sampleGameWithActor (messages : List ChatMessage) : Game :=
  { actors := { tokens := [("t1", sampleActor), ("t2", sampleActor)], entries := [sampleActor] },
    messages := messages,
    user := { id := "gm" },
    portraitSize := 36 }

/-- The list of characters `l` with every letter `e` followed by a combining acute
accent (U+0301) replaced by the one character `é` (U+00E9). -/
def composeAcute : List Char → List Char
  | [] => []
  | [c] => [c]
  | c :: d :: rest =>
    if c = Char.ofNat 101 ∧ d = Char.ofNat 769 then Char.ofNat 233 :: composeAcute rest
    else c :: composeAcute (d :: rest)

/-- The comparison of the host on the strings of the samples: `0` for two strings
that are the same once `e` with a combining accent is written `é`, as the host gives
for canonically equivalent strings, and otherwise `-1` or `1`, a sign the module
never reads. -/
def sampleLocaleCompare (a b : String) : Int :=
  if composeAcute a.data = composeAcute b.data then 0
  else if composeAcute a.data < composeAcute b.data then -1
  else 1

/-- The surroundings of `process` over the log `messages` in the game
`sampleGameWithActor`: lite mode as given, no highlight of the own messages, the
portrait module as given and a template that returns the content. -/
def sampleEnv (messages : List ChatMessage) (liteMode chatPortrait : Bool) : Env :=
  { game := sampleGameWithActor messages,
    LITE_MODE := liteMode,
    BLUE_ME := false,
    chatPortrait := chatPortrait,
    localeCompare := sampleLocaleCompare,
    renderTemplate := fun _ renderData => renderData.content }

/-- A freshly rendered element: no class, no style, no roll card, no whisper label. -/
def sampleHtml : Html :=
  { classes := [], style := none, dnd5eRedFull := false, whisperToElement := false }

/-- The `messageData` the host passes along with the message `m`: the speaker of
`m`, the alias `name` and the recipients `whisperTo` as the host names them. -/
def sampleMessageData (m : ChatMessage) (name : String) (whisperTo : Names) :
    RenderMessageData :=
  { message := { speaker := m.data.speaker, timestamp := 0, content := "hello" },
    «alias» := name,
    whisperTo := whisperTo }

/-! ## Lemmas on the embedding -/

theorem mem_addClass (html : Html) (className c : String) :
    c ∈ (_addClass html className).classes ↔ c ∈ html.classes ∨ c = className := by
  unfold _addClass
  split
  · constructor
    · intro h; exact Or.inl h
    · rintro (h | h)
      · exact h
      · subst h; assumption
  · simp

theorem addClass_dnd5eRedFull (html : Html) (className : String) :
    (_addClass html className).dnd5eRedFull = html.dnd5eRedFull := by
  unfold _addClass
  split <;> rfl

/-- A call of `process` raises when the token image of the loaded actor is empty: the
element has got the class of the interface and nothing else. -/
theorem process_raises (env : Env) (chatMessage : ChatMessage) (html : Html)
    (messageData : RenderMessageData)
    (himage : getChatTokenImage (loadActorForChatMessage env.game messageData) = "") :
    process env chatMessage html messageData =
      Except.error {
        error := "TypeError: this.getUserImage is not a function",
        html := if env.LITE_MODE then _addClass html CLASS_NAMES.LITE_UI
                else _addClass html CLASS_NAMES.ROLL_UI } := by
  unfold process
  simp only []
  rw [if_pos himage]

/-- A call of `process` returns when the token image of the loaded actor is not
empty; the avatar is that image, and the continuation decision, the lookup, the
console lines and the class list of the result are read off the code. -/
theorem process_returns (env : Env) (chatMessage : ChatMessage) (html : Html)
    (messageData : RenderMessageData)
    (himage : getChatTokenImage (loadActorForChatMessage env.game messageData) ≠ "") :
    ∃ r, process env chatMessage html messageData = Except.ok r
      ∧ r.renderData.avatar = getChatTokenImage (loadActorForChatMessage env.game messageData)
      ∧ r.renderData.isContinuation =
        (!chatMessage.data.forceLeading && isValidGroupableType chatMessage
          && match loadPreviousMessage env.game chatMessage with
             | some previousMessage =>
               (isContinuationFromPreviousMessage previousMessage chatMessage).1
             | none => false)
      ∧ r.previousMessage =
        (if (!chatMessage.data.forceLeading && isValidGroupableType chatMessage) = true
          then some (loadPreviousMessage env.game chatMessage) else none)
      ∧ r.console =
        (if (!chatMessage.data.forceLeading && isValidGroupableType chatMessage) = true then
          match loadPreviousMessage env.game chatMessage with
          | some previousMessage =>
            (isContinuationFromPreviousMessage previousMessage chatMessage).2
          | none => []
        else [])
      ∧ ∀ c, c ∈ r.html.classes ↔
        c ∈ html.classes
        ∨ c = (if env.LITE_MODE then CLASS_NAMES.LITE_UI else CLASS_NAMES.ROLL_UI)
        ∨ (isRerenderableType chatMessage = true ∧ c = CLASS_NAMES.MODIFIED)
        ∨ ((html.dnd5eRedFull || decide (chatMessage.data.type = CHAT_MESSAGE_TYPES.ROLL))
            = true ∧ c = CLASS_NAMES.ROLL)
        ∨ ((isMe env.game chatMessage && env.BLUE_ME) = true ∧ c = CLASS_NAMES.ME)
        ∨ c = (if r.renderData.isContinuation then CLASS_NAMES.CONTINUED
                else CLASS_NAMES.LEADING) := by
  unfold process
  simp only []
  rw [if_neg himage]
  refine ⟨_, rfl, rfl, ?_, ?_, ?_, ?_⟩
  · cases chatMessage.data.forceLeading <;> cases isValidGroupableType chatMessage <;>
      cases loadPreviousMessage env.game chatMessage <;> simp
  · cases chatMessage.data.forceLeading <;> cases isValidGroupableType chatMessage <;>
      cases loadPreviousMessage env.game chatMessage <;> simp
  · cases chatMessage.data.forceLeading <;> cases isValidGroupableType chatMessage <;>
      cases loadPreviousMessage env.game chatMessage <;> simp
  · intro c
    simp only [isDiceRollTemplate]
    cases env.LITE_MODE <;>
      simp only [Bool.false_eq_true, ↓reduceIte, addClass_dnd5eRedFull] <;>
      cases isRerenderableType chatMessage <;>
      cases html.dnd5eRedFull <;>
      cases decide (chatMessage.data.type = CHAT_MESSAGE_TYPES.ROLL) <;>
      cases (isMe env.game chatMessage && env.BLUE_ME) <;>
      cases chatMessage.data.forceLeading <;> cases isValidGroupableType chatMessage <;>
      cases loadPreviousMessage env.game chatMessage <;>
      simp only [mem_addClass, Bool.false_eq_true, ↓reduceIte, Bool.not_false, Bool.not_true,
        Bool.and_true, Bool.true_and, Bool.and_false, Bool.false_and, Bool.or_false,
        Bool.or_true, Bool.false_or, Bool.true_or, false_and, true_and, false_or, or_assoc] <;>
      (try split) <;>
      simp_all [mem_addClass, or_assoc]

/-- Searching from position `k` finds a message at the first position that holds it. -/
theorem indexOfFrom_eq (chatMessage : ChatMessage) :
    ∀ (messages : List ChatMessage) (k i : Nat),
      (∃ x, messages[i]? = some x ∧ x.id = chatMessage.id) →
      (∀ j, j < i → ∀ x, messages[j]? = some x → x.id ≠ chatMessage.id) →
      indexOfFrom chatMessage messages k = ((k + i : Nat) : Int)
  | [], _, _, hat, _ => by
    obtain ⟨x, hx, _⟩ := hat
    simp at hx
  | m :: rest, k, 0, hat, _ => by
    obtain ⟨x, hx, hid⟩ := hat
    simp at hx
    subst hx
    simp [indexOfFrom, hid]
  | m :: rest, k, i + 1, hat, hfirst => by
    have hm : m.id ≠ chatMessage.id := hfirst 0 (Nat.succ_pos i) m (by simp)
    have hrest := indexOfFrom_eq chatMessage rest (k + 1) i (by simpa using hat)
      (fun j hj x hx => hfirst (j + 1) (Nat.succ_lt_succ hj) x (by simpa using hx))
    simp only [indexOfFrom, hm, if_false, hrest]
    congr 1
    omega

/-- A message that is not in the log has index `-1`. -/
theorem indexOfFrom_absent (chatMessage : ChatMessage) :
    ∀ (messages : List ChatMessage) (k : Nat),
      (∀ x, x ∈ messages → x.id ≠ chatMessage.id) →
      indexOfFrom chatMessage messages k = -1
  | [], _, _ => rfl
  | m :: rest, k, h => by
    have hm : m.id ≠ chatMessage.id := h m (List.mem_cons_self m rest)
    simp only [indexOfFrom, hm, if_false]
    exact indexOfFrom_absent chatMessage rest (k + 1)
      (fun x hx => h x (List.mem_cons_of_mem m hx))

/-- The backward scan from `index` gives `p` exactly when `p` is the visible entry at
the greatest position below `index`. -/
theorem loadPreviousMessageLoop_eq_some (messages : List ChatMessage) (p : ChatMessage) :
    ∀ (index : Nat), index ≤ messages.length →
      (loadPreviousMessageLoop messages index = some p ↔
        ∃ j, j < index ∧ messages[j]? = some p ∧ p.visible = true
          ∧ ∀ k, j < k → k < index → ∀ x, messages[k]? = some x → x.visible = false)
  | 0, _ => by simp [loadPreviousMessageLoop]
  | index + 1, hle => by
    have hlt : index < messages.length := hle
    have hget : messages[index]? = some messages[index] := List.getElem?_eq_getElem hlt
    have ih := loadPreviousMessageLoop_eq_some messages p index (Nat.le_of_lt hlt)
    simp only [loadPreviousMessageLoop, hget]
    by_cases hvis : messages[index].visible = true
    · simp only [hvis, if_true]
      constructor
      · intro h
        have hp : messages[index] = p := Option.some.inj h
        refine ⟨index, Nat.lt_succ_self index, by rw [hget, hp], hp ▸ hvis, ?_⟩
        intro k h1 h2
        omega
      · rintro ⟨j, hj, hjp, _, hbetween⟩
        rcases Nat.lt_succ_iff_lt_or_eq.mp hj with hlt2 | heq
        · have := hbetween index hlt2 (Nat.lt_succ_self index) _ hget
          rw [hvis] at this
          exact absurd this (by decide)
        · subst heq
          rw [hget] at hjp
          exact hjp
    · have hhid : messages[index].visible = false := by
        cases h : messages[index].visible
        · rfl
        · exact absurd h hvis
      simp only [hhid, Bool.false_eq_true, if_false]
      rw [ih]
      constructor
      · rintro ⟨j, hj, hjp, hpv, hbetween⟩
        refine ⟨j, Nat.lt_succ_of_lt hj, hjp, hpv, ?_⟩
        intro k h1 h2 x hx
        rcases Nat.lt_succ_iff_lt_or_eq.mp h2 with hlt2 | heq
        · exact hbetween k h1 hlt2 x hx
        · subst heq
          rw [hget] at hx
          exact (Option.some.inj hx) ▸ hhid
      · rintro ⟨j, hj, hjp, hpv, hbetween⟩
        rcases Nat.lt_succ_iff_lt_or_eq.mp hj with hlt2 | heq
        · exact ⟨j, hlt2, hjp, hpv,
            fun k h1 h2 x hx => hbetween k h1 (Nat.lt_succ_of_lt h2) x hx⟩
        · subst heq
          rw [hget] at hjp
          rw [Option.some.inj hjp, hpv] at hhid
          exact absurd hhid (by decide)

/-- The backward scan from `index` gives nothing exactly when no entry below `index`
is visible. -/
theorem loadPreviousMessageLoop_eq_none (messages : List ChatMessage) :
    ∀ (index : Nat), index ≤ messages.length →
      (loadPreviousMessageLoop messages index = none ↔
        ∀ j, j < index → ∀ x, messages[j]? = some x → x.visible = false)
  | 0, _ => by simp [loadPreviousMessageLoop]
  | index + 1, hle => by
    have hlt : index < messages.length := hle
    have hget : messages[index]? = some messages[index] := List.getElem?_eq_getElem hlt
    have ih := loadPreviousMessageLoop_eq_none messages index (Nat.le_of_lt hlt)
    simp only [loadPreviousMessageLoop, hget]
    cases hvis : messages[index].visible
    · simp only [Bool.false_eq_true, if_false]
      rw [ih]
      constructor
      · intro h j hj x hx
        rcases Nat.lt_succ_iff_lt_or_eq.mp hj with hlt2 | heq
        · exact h j hlt2 x hx
        · subst heq
          rw [hget] at hx
          exact (Option.some.inj hx) ▸ hvis
      · intro h j hj x hx
        exact h j (Nat.lt_succ_of_lt hj) x hx
    · simp only [if_true]
      constructor
      · intro h
        exact absurd h (by simp)
      · intro h
        have := h index (Nat.lt_succ_self index) _ hget
        rw [hvis] at this
        exact absurd this (by decide)

/-- The lookup for a message found at position `i` of the log scans from `i`. -/
theorem loadPreviousMessage_at (game : Game) (chatMessage : ChatMessage) (i : Nat)
    (hat : ∃ x, game.messages[i]? = some x ∧ x.id = chatMessage.id)
    (hfirst : ∀ j, j < i → ∀ x, game.messages[j]? = some x → x.id ≠ chatMessage.id) :
    loadPreviousMessage game chatMessage = loadPreviousMessageLoop game.messages i := by
  unfold loadPreviousMessage
  simp only []
  rw [indexOfFrom_eq chatMessage game.messages 0 i hat hfirst]
  simp

/-- In a log `pre ++ prev :: (mid ++ chatMessage :: post)` where `prev` is visible,
all of `mid` is hidden and `chatMessage` does not occur before its place, the lookup
gives `prev`. -/
theorem loadPreviousMessage_of_split (game : Game) (chatMessage prev : ChatMessage)
    (pre mid post : List ChatMessage)
    (hlog : game.messages = pre ++ prev :: (mid ++ chatMessage :: post))
    (hvisible : prev.visible = true)
    (hmid : ∀ x, x ∈ mid → x.visible = false)
    (hid : ∀ x, x ∈ pre ++ prev :: mid → x.id ≠ chatMessage.id) :
    loadPreviousMessage game chatMessage = some prev := by
  have hlog2 : game.messages = (pre ++ prev :: mid) ++ chatMessage :: post := by
    rw [hlog]; simp
  have hlen : (pre ++ prev :: mid).length = pre.length + 1 + mid.length := by
    simp; omega
  have hat : game.messages[pre.length + 1 + mid.length]? = some chatMessage := by
    rw [hlog2, ← hlen, List.getElem?_append_right (Nat.le_refl _)]
    simp
  have hbefore : ∀ j, j < pre.length + 1 + mid.length → ∀ x, game.messages[j]? = some x →
      x ∈ pre ++ prev :: mid := by
    intro j hj x hx
    rw [hlog2, List.getElem?_append_left (by omega)] at hx
    exact List.getElem?_mem hx
  rw [loadPreviousMessage_at game chatMessage (pre.length + 1 + mid.length)
    ⟨chatMessage, hat, rfl⟩ (fun j hj x hx => hid x (hbefore j hj x hx))]
  have hle : pre.length + 1 + mid.length ≤ game.messages.length := by
    rw [hlog2]; simp; omega
  rw [loadPreviousMessageLoop_eq_some game.messages prev _ hle]
  refine ⟨pre.length, by omega, ?_, hvisible, ?_⟩
  · rw [hlog, List.getElem?_append_right (Nat.le_refl _)]
    simp
  · intro k h1 h2 x hx
    apply hmid
    rw [hlog, List.getElem?_append_right (Nat.le_of_lt h1)] at hx
    have hk : k - pre.length = (k - pre.length - 1) + 1 := by omega
    rw [hk, List.getElem?_cons_succ, List.getElem?_append_left (by omega)] at hx
    exact List.getElem?_mem hx

/-- The search by name keeps what it started with when no actor bears the name. -/
theorem foldl_name_unmatched (name : Option String) (start : Option Actor) :
    ∀ (entries : List Actor), (∀ x, x ∈ entries → some x.name ≠ name) →
      entries.foldl (fun found value => if some value.name = name then some value else found)
        start = start
  | [], _ => rfl
  | value :: rest, h => by
    have hvalue : some value.name ≠ name := h value (List.mem_cons_self value rest)
    simp only [List.foldl_cons, hvalue, if_false]
    exact foldl_name_unmatched name start rest (fun x hx => h x (List.mem_cons_of_mem value hx))

/-- No actor is loaded for a speaker that matches no token, no actor id and no
actor name. -/
theorem loadActorForChatMessage_unmatched (game : Game) (messageData : RenderMessageData)
    (htoken : ∀ t, messageData.message.speaker.token = some t → t ≠ "" →
      game.actors.tokens.lookup t = none)
    (hactor : ∀ a, messageData.message.speaker.actor = some a →
      ∀ x, x ∈ game.actors.entries → x.id ≠ a)
    (hname : ∀ x, x ∈ game.actors.entries → some x.name ≠ messageData.message.speaker.alias) :
    loadActorForChatMessage game messageData = none := by
  have h1 : (if truthy messageData.message.speaker.token = true then
      match messageData.message.speaker.token with
      | some t => game.actors.tokens.lookup t
      | none => none
      else none) = none := by
    cases htok : messageData.message.speaker.token with
    | none => simp
    | some t =>
      by_cases ht : t = ""
      · simp [truthy, ht]
      · simp [truthy, ht, htoken t htok ht]
  have h2 : (match messageData.message.speaker.actor with
      | some a => game.actors.entries.find? (fun value => value.id == a)
      | none => none) = none := by
    cases hact : messageData.message.speaker.actor with
    | none => rfl
    | some a =>
      simp only [List.find?_eq_none]
      intro x hx
      simpa using hactor a hact x hx
  unfold loadActorForChatMessage
  simp only [h1, h2, Option.isNone_none, if_true]
  exact foldl_name_unmatched _ none _ hname

/-- Two messages of one kind are from the same actor in either order. -/
theorem isFromTheSameActor_comm (a b : MessageData) (hkind : a.type = b.type) :
    isFromTheSameActor a b = isFromTheSameActor b a := by
  unfold isFromTheSameActor
  simp only []
  rw [hkind, Bool.or_comm (truthy a.speaker.token), Bool.or_comm (truthy a.speaker.alias),
    show decide (a.speaker.token = b.speaker.token) = decide (b.speaker.token = a.speaker.token)
      from decide_eq_decide.mpr eq_comm,
    show decide (a.speaker.alias = b.speaker.alias) = decide (b.speaker.alias = a.speaker.alias)
      from decide_eq_decide.mpr eq_comm,
    show decide (a.user = b.user) = decide (b.user = a.user) from decide_eq_decide.mpr eq_comm]

/-- The recipients of two messages compare alike in either order, with the same
console lines. -/
theorem sameWhisperRecipients_comm (a b : ChatMessage) :
    sameWhisperRecipients a b = sameWhisperRecipients b a := by
  unfold sameWhisperRecipients getRealWhisperTargets
  cases a.data.whisper <;> cases b.data.whisper <;> cases a.whisperTargets <;>
    cases b.whisperTargets <;> simp [arrayEquals, eq_comm]

/-- When the last two of three messages have one kind, being from the same actor is
transitive. -/
theorem isFromTheSameActor_trans (a b c : MessageData)
    (hbc : b.type = c.type) (h1 : isFromTheSameActor a b = true)
    (h2 : isFromTheSameActor b c = true) : isFromTheSameActor a c = true := by
  unfold isFromTheSameActor at h1 h2 ⊢
  simp only [] at h1 h2 ⊢
  rw [← hbc] at h2 ⊢
  by_cases hta : truthy a.speaker.token = true <;>
    by_cases htb : truthy b.speaker.token = true <;>
    by_cases htc : truthy c.speaker.token = true <;>
    by_cases haa : truthy a.speaker.alias = true <;>
    by_cases hab2 : truthy b.speaker.alias = true <;>
    by_cases hac : truthy c.speaker.alias = true <;>
    simp_all

/-! ## The continuation predicate -/

/-- C1 (as stated, refuted): identical speaker token ids, identical recipient
sequences and an identical groupable kind do not make the second message a
continuation. Three pairs meet the three conditions and are no continuation: one
whose real target lists differ, one without token ids whose aliases differ, and one
without the recipient attribute. -/
theorem C1_counterexample :
    (let prev := sampleMessage "m1" CHAT_MESSAGE_TYPES.WHISPER (some "t1") (some "Bob") "u1"
        (some ["u2"]) (some ["Alice"])
     let next := sampleMessage "m2" CHAT_MESSAGE_TYPES.WHISPER (some "t1") (some "Bob") "u1"
        (some ["u2"]) (some ["Carol"])
     prev.data.speaker.token = next.data.speaker.token ∧ prev.data.whisper = next.data.whisper
      ∧ prev.data.type = next.data.type
      ∧ next.data.type ∈ [CHAT_MESSAGE_TYPES.OOC, CHAT_MESSAGE_TYPES.IC, CHAT_MESSAGE_TYPES.WHISPER]
      ∧ (isContinuationFromPreviousMessage prev next).1 = false)
    ∧ (let prev := sampleMessage "m1" CHAT_MESSAGE_TYPES.IC none (some "Bob") "u1" (some []) none
       let next := sampleMessage "m2" CHAT_MESSAGE_TYPES.IC none (some "Alice") "u1" (some []) none
       prev.data.speaker.token = next.data.speaker.token ∧ prev.data.whisper = next.data.whisper
        ∧ prev.data.type = next.data.type
        ∧ next.data.type ∈ [CHAT_MESSAGE_TYPES.OOC, CHAT_MESSAGE_TYPES.IC, CHAT_MESSAGE_TYPES.WHISPER]
        ∧ (isContinuationFromPreviousMessage prev next).1 = false)
    ∧ (let prev := sampleMessage "m1" CHAT_MESSAGE_TYPES.IC (some "t1") (some "Bob") "u1" none none
       let next := sampleMessage "m2" CHAT_MESSAGE_TYPES.IC (some "t1") (some "Bob") "u1" none none
       prev.data.speaker.token = next.data.speaker.token ∧ prev.data.whisper = next.data.whisper
        ∧ prev.data.type = next.data.type
        ∧ next.data.type ∈ [CHAT_MESSAGE_TYPES.OOC, CHAT_MESSAGE_TYPES.IC, CHAT_MESSAGE_TYPES.WHISPER]
        ∧ (isContinuationFromPreviousMessage prev next).1 = false) := by
  decide

/-- C1 (amended): when the two speakers carry the same non-empty token id, both
messages have the recipient attribute with identical sequences, their real target
lists are equal whenever both carry one, and their kinds are identical and one of
OOC, IC, WHISPER, then `isContinuationFromPreviousMessage` is true. -/
theorem C1_same_token_recipients_kind (prev next : ChatMessage) (w : List String)
    (htoken : truthy prev.data.speaker.token = true)
    (hsame : prev.data.speaker.token = next.data.speaker.token)
    (hprev : prev.data.whisper = some w) (hnext : next.data.whisper = some w)
    (hreal : ∀ p n, getRealWhisperTargets prev = some p → getRealWhisperTargets next = some n →
      p = n)
    (hkind : prev.data.type = next.data.type)
    (_hgroupable : next.data.type ∈
      [CHAT_MESSAGE_TYPES.OOC, CHAT_MESSAGE_TYPES.IC, CHAT_MESSAGE_TYPES.WHISPER]) :
    (isContinuationFromPreviousMessage prev next).1 = true := by
  have hactor : isFromTheSameActor prev.data next.data = true := by
    have htoken2 : truthy next.data.speaker.token = true := hsame ▸ htoken
    simp [isFromTheSameActor, htoken2, hsame]
  have hwhisper : (sameWhisperRecipients prev next).1 = true := by
    unfold sameWhisperRecipients
    rw [hprev, hnext]
    cases hp : getRealWhisperTargets prev <;> cases hn : getRealWhisperTargets next <;>
      simp [arrayEquals]
    exact hreal _ _ hp hn
  simp [isContinuationFromPreviousMessage, hactor, hwhisper, hkind]

/-- A pair that meets the conditions of `C1_same_token_recipients_kind`: two whispers
of token `t1` to the same recipient, the first with a real target list. -/
theorem C1_same_token_recipients_kind_witness :
    (isContinuationFromPreviousMessage
      (sampleMessage "m1" CHAT_MESSAGE_TYPES.WHISPER (some "t1") (some "Bob") "u1"
        (some ["u2"]) (some ["Alice"]))
      (sampleMessage "m2" CHAT_MESSAGE_TYPES.WHISPER (some "t1") (some "Bob") "u1"
        (some ["u2"]) none)).1 = true :=
  C1_same_token_recipients_kind _ _ ["u2"] (by decide) (by decide) (by decide) (by decide)
    (by intro p n hp hn; simp [getRealWhisperTargets, sampleMessage] at hn)
    (by decide) (by decide)

/-! ## The override `forceLeading` -/

/-- C2: the code does what the claim says for a message with `forceLeading` set
whenever the call of `process` gets past the avatar, that is whenever the token
image of the loaded actor is not empty: the decision is "no continuation", the
continuation block is not entered (no lookup, no console line), the class `leading`
is added and the class `continued` is not. It does not for every message: for a
forced message of a speaker "Carol" that no actor answers to, `process` raises at
the call of the missing method `getUserImage`, and the element has the class
`roll-ui` alone. -/
theorem C2_forceLeading_raises_without_image :
    (∀ (env : Env) (chatMessage : ChatMessage) (html : Html) (messageData : RenderMessageData),
      chatMessage.data.forceLeading = true →
      getChatTokenImage (loadActorForChatMessage env.game messageData) ≠ "" →
      ∃ r, process env chatMessage html messageData = Except.ok r
        ∧ r.renderData.isContinuation = false
        ∧ r.previousMessage = none
        ∧ r.console = []
        ∧ "leading" ∈ r.html.classes
        ∧ ("continued" ∈ r.html.classes → "continued" ∈ html.classes))
    ∧ (let prev := sampleMessage "m1" CHAT_MESSAGE_TYPES.IC none (some "Carol") "u1"
          (some []) none
       let next := forced
          (sampleMessage "m2" CHAT_MESSAGE_TYPES.IC none (some "Carol") "u1" (some []) none)
       next.data.forceLeading = true
        ∧ process (sampleEnv [prev, next] false false) next sampleHtml
            (sampleMessageData next "Carol" Names.absent)
          = Except.error {
              error := "TypeError: this.getUserImage is not a function",
              html := { classes := ["roll-ui"], style := none, dnd5eRedFull := false,
                        whisperToElement := false } }) := by
  constructor
  · intro env chatMessage html messageData hforce himage
    obtain ⟨r, hr, _, hcont, hprev, hconsole, hclasses⟩ :=
      process_returns env chatMessage html messageData himage
    have hcont2 : r.renderData.isContinuation = false := by
      rw [hcont, hforce]; rfl
    refine ⟨r, hr, hcont2, ?_, ?_, ?_, ?_⟩
    · rw [hprev, hforce]; rfl
    · rw [hconsole, hforce]; rfl
    · rw [hclasses, hcont2]
      simp [CLASS_NAMES.LEADING]
    · rw [hclasses, hcont2]
      cases env.LITE_MODE <;>
        simp [CLASS_NAMES.LEADING, CLASS_NAMES.MODIFIED, CLASS_NAMES.ROLL, CLASS_NAMES.ME,
          CLASS_NAMES.LITE_UI, CLASS_NAMES.ROLL_UI]
  · exact ⟨by decide, rfl⟩

/-- A forced message of "Bob", whom the actor `a1` answers to, right after a message
it would otherwise continue: the call returns and decides "no continuation". -/
theorem C2_forceLeading_raises_without_image_witness :
    ∃ r, process
        (sampleEnv [
          sampleMessage "m1" CHAT_MESSAGE_TYPES.IC none (some "Bob") "u1" (some []) none,
          forced (sampleMessage "m2" CHAT_MESSAGE_TYPES.IC none (some "Bob") "u1" (some []) none)]
          false false)
        (forced (sampleMessage "m2" CHAT_MESSAGE_TYPES.IC none (some "Bob") "u1" (some []) none))
        sampleHtml
        (sampleMessageData
          (forced (sampleMessage "m2" CHAT_MESSAGE_TYPES.IC none (some "Bob") "u1" (some []) none))
          "Bob" Names.absent) = Except.ok r
      ∧ r.renderData.isContinuation = false ∧ "leading" ∈ r.html.classes :=
  match C2_forceLeading_raises_without_image.1 _ _ sampleHtml _ (by decide) (by decide) with
  | ⟨r, hr, hcont, _, _, hleading, _⟩ => ⟨r, hr, hcont, hleading⟩

/-! ## Whisper recipients -/

/-- C3: when one of the two messages lacks the recipient attribute,
`sameWhisperRecipients` is false, so is `isContinuationFromPreviousMessage`, and the
comparison writes exactly one warning; when both have the attribute, nothing is
written. -/
theorem C3_missing_whisper_warns_once (prev next : ChatMessage) :
    ((prev.data.whisper = none ∨ next.data.whisper = none) →
      (sameWhisperRecipients prev next).1 = false
      ∧ (isContinuationFromPreviousMessage prev next).1 = false
      ∧ (sameWhisperRecipients prev next).2
          = ["MESSAGE GROUPING | WHISPER PROPERTY OF CHAT MESSAGE NOT FOUND"]
      ∧ (isContinuationFromPreviousMessage prev next).2.length = 1)
    ∧ (prev.data.whisper ≠ none → next.data.whisper ≠ none →
      (sameWhisperRecipients prev next).2 = []
      ∧ (isContinuationFromPreviousMessage prev next).2 = []) := by
  have hwarn : _warn "WHISPER PROPERTY OF CHAT MESSAGE NOT FOUND"
      = ["MESSAGE GROUPING | WHISPER PROPERTY OF CHAT MESSAGE NOT FOUND"] := by decide
  constructor
  · intro h
    have h1 : sameWhisperRecipients prev next
        = (false, ["MESSAGE GROUPING | WHISPER PROPERTY OF CHAT MESSAGE NOT FOUND"]) := by
      unfold sameWhisperRecipients
      rcases h with h | h
      · rw [h, hwarn]
      · rw [h, hwarn]
        cases prev.data.whisper <;> rfl
    simp [isContinuationFromPreviousMessage, h1]
  · intro hp hn
    obtain ⟨a, ha⟩ := Option.ne_none_iff_exists'.mp hp
    obtain ⟨b, hb⟩ := Option.ne_none_iff_exists'.mp hn
    have h1 : (sameWhisperRecipients prev next).2 = [] := by
      unfold sameWhisperRecipients
      rw [ha, hb]
    exact ⟨h1, by simp [isContinuationFromPreviousMessage, h1]⟩

/-- Both halves of `C3_missing_whisper_warns_once` at concrete pairs: a message
without the attribute after a public one, and two public messages. -/
theorem C3_missing_whisper_warns_once_witness :
    (isContinuationFromPreviousMessage
      (sampleMessage "m1" CHAT_MESSAGE_TYPES.IC none (some "Bob") "u1" (some []) none)
      (sampleMessage "m2" CHAT_MESSAGE_TYPES.IC none (some "Bob") "u1" none none)).2.length = 1
    ∧ (isContinuationFromPreviousMessage
      (sampleMessage "m1" CHAT_MESSAGE_TYPES.IC none (some "Bob") "u1" (some []) none)
      (sampleMessage "m2" CHAT_MESSAGE_TYPES.IC none (some "Bob") "u1" (some []) none)).2 = [] :=
  ⟨((C3_missing_whisper_warns_once _ _).1 (Or.inr (by decide))).2.2.2,
    ((C3_missing_whisper_warns_once _ _).2 (by decide) (by decide)).2⟩

/-- C4 (as stated, refuted): two public messages, a public message being one whose
recipient set is absent or empty, need not have the same recipients for
`sameWhisperRecipients`: it is false for two messages without the attribute, and
false for two messages with empty recipients whose real target lists differ. -/
theorem C4_counterexample :
    (let prev := sampleMessage "m1" CHAT_MESSAGE_TYPES.IC none (some "Bob") "u1" none none
     let next := sampleMessage "m2" CHAT_MESSAGE_TYPES.IC none (some "Bob") "u1" none none
     (prev.data.whisper = none ∨ prev.data.whisper = some [])
      ∧ (next.data.whisper = none ∨ next.data.whisper = some [])
      ∧ (sameWhisperRecipients prev next).1 = false)
    ∧ (let prev := sampleMessage "m1" CHAT_MESSAGE_TYPES.IC none (some "Bob") "u1" (some [])
          (some ["Alice"])
       let next := sampleMessage "m2" CHAT_MESSAGE_TYPES.IC none (some "Bob") "u1" (some [])
          (some ["Carol"])
       (prev.data.whisper = none ∨ prev.data.whisper = some [])
        ∧ (next.data.whisper = none ∨ next.data.whisper = some [])
        ∧ (sameWhisperRecipients prev next).1 = false) := by
  decide

/-- C4 (amended): for two messages whose recipient attribute is present and empty,
and whose real target lists are equal whenever both carry one,
`sameWhisperRecipients` is true. -/
theorem C4_public_messages_same_recipients (prev next : ChatMessage)
    (hprev : prev.data.whisper = some []) (hnext : next.data.whisper = some [])
    (hreal : ∀ p n, getRealWhisperTargets prev = some p → getRealWhisperTargets next = some n →
      p = n) :
    (sameWhisperRecipients prev next).1 = true := by
  unfold sameWhisperRecipients
  rw [hprev, hnext]
  cases hp : getRealWhisperTargets prev <;> cases hn : getRealWhisperTargets next <;>
    simp [arrayEquals]
  exact hreal _ _ hp hn

/-- Two public messages of the host, with empty recipients and no real target list. -/
theorem C4_public_messages_same_recipients_witness :
    (sameWhisperRecipients
      (sampleMessage "m1" CHAT_MESSAGE_TYPES.IC none (some "Bob") "u1" (some []) none)
      (sampleMessage "m2" CHAT_MESSAGE_TYPES.OOC none (some "Alice") "u2" (some []) none)).1
      = true :=
  C4_public_messages_same_recipients _ _ (by decide) (by decide)
    (by intro p n hp _; simp [getRealWhisperTargets, sampleMessage] at hp)

/-- C5: when both messages have the recipient attribute and the two raw sequences
differ as ordered sequences, `sameWhisperRecipients` is false and so is
`isContinuationFromPreviousMessage`, whatever the speakers and kinds are. -/
theorem C5_recipients_order_sensitive (prev next : ChatMessage) (w1 w2 : List String)
    (hprev : prev.data.whisper = some w1) (hnext : next.data.whisper = some w2)
    (hdiff : w1 ≠ w2) :
    (sameWhisperRecipients prev next).1 = false
    ∧ (isContinuationFromPreviousMessage prev next).1 = false := by
  have h1 : (sameWhisperRecipients prev next).1 = false := by
    unfold sameWhisperRecipients
    rw [hprev, hnext]
    simp [arrayEquals, hdiff]
  exact ⟨h1, by simp [isContinuationFromPreviousMessage, h1]⟩

/-- The two pairs of the specification, same speaker and kind: recipients `[A, B]`
against `[B, A]`, and `[Alice]` against `[Alice, Bob]`. -/
theorem C5_recipients_order_sensitive_witness :
    (isContinuationFromPreviousMessage
      (sampleMessage "m1" CHAT_MESSAGE_TYPES.WHISPER (some "t1") (some "Bob") "u1"
        (some ["A", "B"]) none)
      (sampleMessage "m2" CHAT_MESSAGE_TYPES.WHISPER (some "t1") (some "Bob") "u1"
        (some ["B", "A"]) none)).1 = false
    ∧ (isContinuationFromPreviousMessage
      (sampleMessage "m1" CHAT_MESSAGE_TYPES.WHISPER (some "t1") (some "Bob") "u1"
        (some ["Alice"]) none)
      (sampleMessage "m2" CHAT_MESSAGE_TYPES.WHISPER (some "t1") (some "Bob") "u1"
        (some ["Alice", "Bob"]) none)).1 = false :=
  ⟨(C5_recipients_order_sensitive _ _ ["A", "B"] ["B", "A"] (by decide) (by decide)
      (by decide)).2,
    (C5_recipients_order_sensitive _ _ ["Alice"] ["Alice", "Bob"] (by decide) (by decide)
      (by decide)).2⟩

/-- C9: for two messages that both have the recipient attribute,
`sameWhisperRecipients` is true exactly when the raw sequences are equal as ordered
sequences and, if both messages carry a real target list, those lists are equal as
ordered sequences too; when at most one message carries a real list, the raw
sequences alone decide. -/
theorem C9_recipients_both_comparisons (prev next : ChatMessage) (w1 w2 : List String)
    (hprev : prev.data.whisper = some w1) (hnext : next.data.whisper = some w2) :
    ((sameWhisperRecipients prev next).1 = true ↔
      w1 = w2 ∧ ∀ p n, getRealWhisperTargets prev = some p →
        getRealWhisperTargets next = some n → p = n)
    ∧ ((getRealWhisperTargets prev = none ∨ getRealWhisperTargets next = none) →
      ((sameWhisperRecipients prev next).1 = true ↔ w1 = w2)) := by
  unfold sameWhisperRecipients
  rw [hprev, hnext]
  cases hp : getRealWhisperTargets prev <;> cases hn : getRealWhisperTargets next <;>
    simp [arrayEquals]
  exact And.comm

/-- Equal raw recipients decide alone when only one message carries a real list, and
differing real lists on both sides defeat equal raw recipients. -/
theorem C9_recipients_both_comparisons_witness :
    (sameWhisperRecipients
      (sampleMessage "m1" CHAT_MESSAGE_TYPES.WHISPER none (some "Bob") "u1" (some ["u2"])
        (some ["Alice"]))
      (sampleMessage "m2" CHAT_MESSAGE_TYPES.WHISPER none (some "Bob") "u1" (some ["u2"])
        none)).1 = true
    ∧ ¬ (sameWhisperRecipients
      (sampleMessage "m1" CHAT_MESSAGE_TYPES.WHISPER none (some "Bob") "u1" (some ["u2"])
        (some ["Alice"]))
      (sampleMessage "m2" CHAT_MESSAGE_TYPES.WHISPER none (some "Bob") "u1" (some ["u2"])
        (some ["Carol"]))).1 = true :=
  ⟨((C9_recipients_both_comparisons _ _ ["u2"] ["u2"] (by decide) (by decide)).2
      (Or.inr (by decide))).mpr rfl,
    fun h => absurd
      (((C9_recipients_both_comparisons _ _ ["u2"] ["u2"] (by decide) (by decide)).1.mp h).2
        ["Alice"] ["Carol"] (by decide) (by decide))
      (by decide)⟩

/-! ## Kind and speaker -/

/-- C7: two messages of different kinds are never a continuation, whatever their
speakers and recipients are. -/
theorem C7_kind_mismatch (prev next : ChatMessage) (hkind : prev.data.type ≠ next.data.type) :
    (isContinuationFromPreviousMessage prev next).1 = false := by
  simp [isContinuationFromPreviousMessage, hkind]

/-- An in-character message after an out-of-character one of the same speaker. -/
theorem C7_kind_mismatch_witness :
    (isContinuationFromPreviousMessage
      (sampleMessage "m1" CHAT_MESSAGE_TYPES.OOC (some "t1") (some "Bob") "u1" (some []) none)
      (sampleMessage "m2" CHAT_MESSAGE_TYPES.IC (some "t1") (some "Bob") "u1" (some []) none)).1
      = false :=
  C7_kind_mismatch _ _ (by decide)

/-- C8: the identity ladder of `isFromTheSameActor`. If either speaker has a token
id, the result is the equality of the token ids; otherwise, if either speaker has an
alias, it is the equality of the aliases; otherwise, if the kind of the second
message is whisper or out-of-character, it is the equality of the author user ids;
otherwise it is false. -/
theorem C8_identity_ladder (prev next : MessageData) :
    ((truthy prev.speaker.token = true ∨ truthy next.speaker.token = true) →
      isFromTheSameActor prev next = decide (prev.speaker.token = next.speaker.token))
    ∧ (truthy prev.speaker.token = false → truthy next.speaker.token = false →
      (truthy prev.speaker.alias = true ∨ truthy next.speaker.alias = true) →
      isFromTheSameActor prev next = decide (prev.speaker.alias = next.speaker.alias))
    ∧ (truthy prev.speaker.token = false → truthy next.speaker.token = false →
      truthy prev.speaker.alias = false → truthy next.speaker.alias = false →
      (next.type = CHAT_MESSAGE_TYPES.WHISPER ∨ next.type = CHAT_MESSAGE_TYPES.OOC) →
      isFromTheSameActor prev next = decide (prev.user = next.user))
    ∧ (truthy prev.speaker.token = false → truthy next.speaker.token = false →
      truthy prev.speaker.alias = false → truthy next.speaker.alias = false →
      next.type ≠ CHAT_MESSAGE_TYPES.WHISPER → next.type ≠ CHAT_MESSAGE_TYPES.OOC →
      isFromTheSameActor prev next = false) := by
  refine ⟨?_, ?_, ?_, ?_⟩
  · intro h
    rcases h with h | h <;> simp [isFromTheSameActor, h]
  · intro h1 h2 h
    rcases h with h | h <;> simp [isFromTheSameActor, h1, h2, h]
  · intro h1 h2 h3 h4 h
    rcases h with h | h <;> simp [isFromTheSameActor, h1, h2, h3, h4, h]
  · intro h1 h2 h3 h4 h5 h6
    simp [isFromTheSameActor, h1, h2, h3, h4, h5, h6]

/-- The four rungs at concrete messages: differing tokens under one alias, equal
aliases without tokens, equal authors of two anonymous whispers, and two anonymous
in-character messages of one author. -/
theorem C8_identity_ladder_witness :
    isFromTheSameActor
      (sampleMessage "m1" CHAT_MESSAGE_TYPES.IC (some "t1") (some "Bob") "u1" (some []) none).data
      (sampleMessage "m2" CHAT_MESSAGE_TYPES.IC (some "t2") (some "Bob") "u1" (some []) none).data
      = false
    ∧ isFromTheSameActor
      (sampleMessage "m1" CHAT_MESSAGE_TYPES.IC none (some "Bob") "u1" (some []) none).data
      (sampleMessage "m2" CHAT_MESSAGE_TYPES.IC none (some "Bob") "u2" (some []) none).data
      = true
    ∧ isFromTheSameActor
      (sampleMessage "m1" CHAT_MESSAGE_TYPES.WHISPER none none "u1" (some ["u2"]) none).data
      (sampleMessage "m2" CHAT_MESSAGE_TYPES.WHISPER none none "u1" (some ["u2"]) none).data
      = true
    ∧ isFromTheSameActor
      (sampleMessage "m1" CHAT_MESSAGE_TYPES.IC none none "u1" (some []) none).data
      (sampleMessage "m2" CHAT_MESSAGE_TYPES.IC none none "u1" (some []) none).data
      = false :=
  ⟨((C8_identity_ladder _ _).1 (Or.inl (by decide))).trans (by decide),
    ((C8_identity_ladder _ _).2.1 (by decide) (by decide) (Or.inl (by decide))).trans
      (by decide),
    ((C8_identity_ladder _ _).2.2.1 (by decide) (by decide) (by decide) (by decide)
      (Or.inl (by decide))).trans (by decide),
    (C8_identity_ladder _ _).2.2.2 (by decide) (by decide) (by decide) (by decide)
      (by decide) (by decide)⟩

/-! ## The preceding visible message -/

/-- C6: for a message at position `i` of the log, `loadPreviousMessage` returns the
entry at the greatest position below `i` that is marked visible, whatever the kind
of that entry, and returns nothing exactly when no entry below `i` is visible. The
position of a message is the first position that holds it. -/
theorem C6_previous_visible_message (game : Game) (chatMessage : ChatMessage) (i : Nat)
    (hat : game.messages[i]? = some chatMessage)
    (hfirst : ∀ j, j < i → ∀ x, game.messages[j]? = some x → x.id ≠ chatMessage.id) :
    (∀ p, loadPreviousMessage game chatMessage = some p ↔
      ∃ j, j < i ∧ game.messages[j]? = some p ∧ p.visible = true
        ∧ ∀ k, j < k → k < i → ∀ x, game.messages[k]? = some x → x.visible = false)
    ∧ (loadPreviousMessage game chatMessage = none ↔
      ∀ j, j < i → ∀ x, game.messages[j]? = some x → x.visible = false) := by
  have hle : i ≤ game.messages.length := by
    by_contra hgt
    rw [List.getElem?_eq_none (by omega)] at hat
    exact absurd hat (by simp)
  rw [loadPreviousMessage_at game chatMessage i ⟨chatMessage, hat, rfl⟩ hfirst]
  exact ⟨fun p => loadPreviousMessageLoop_eq_some game.messages p i hle,
    loadPreviousMessageLoop_eq_none game.messages i hle⟩

/-- The log of the specification, `[v1 visible, h hidden, v2 visible, m]`, with a dice
roll for `v2`: the lookup for `m` gives `v2`. -/
theorem C6_previous_visible_message_witness :
    loadPreviousMessage
      (sampleGame [
        sampleMessage "v1" CHAT_MESSAGE_TYPES.IC none (some "Bob") "u1" (some []) none,
        hidden (sampleMessage "h" CHAT_MESSAGE_TYPES.IC none (some "Bob") "u1" (some []) none),
        sampleMessage "v2" CHAT_MESSAGE_TYPES.ROLL none (some "Ann") "u2" (some []) none,
        sampleMessage "m" CHAT_MESSAGE_TYPES.IC none (some "Bob") "u1" (some []) none])
      (sampleMessage "m" CHAT_MESSAGE_TYPES.IC none (some "Bob") "u1" (some []) none)
    = some (sampleMessage "v2" CHAT_MESSAGE_TYPES.ROLL none (some "Ann") "u2" (some []) none) :=
  ((C6_previous_visible_message _ _ 3 (by decide)
      (by
        intro j hj x hx
        interval_cases j <;> simp [sampleGame] at hx <;> subst hx <;> decide)).1 _).mpr
    ⟨2, by decide, by decide, by decide, by intro k h1 h2; omega⟩

/-! ## Two public messages of one speaker -/

/-- C10 (as stated, refuted): a log of two visible public in-character messages
from the same speaker alias, without whisper targets and with `forceLeading` unset,
does not always make the second a continuation. In four logs where `process` returns
the second message is classed `leading`: when the alias is the one of the
description command, when the two speakers have different token ids, when the
messages lack the recipient attribute, and when the common alias is the empty
string. -/
theorem C10_counterexample :
    (let prev := spokenBy "a1" (sampleMessage "m1" CHAT_MESSAGE_TYPES.IC none
        (some "#CGMP_DESCRIPTION") "u1" (some []) none)
     let next := spokenBy "a1" (sampleMessage "m2" CHAT_MESSAGE_TYPES.IC none
        (some "#CGMP_DESCRIPTION") "u1" (some []) none)
     ∃ r, process (sampleEnv [prev, next] false false) next sampleHtml
          (sampleMessageData next "#CGMP_DESCRIPTION" Names.absent) = Except.ok r
      ∧ r.renderData.isContinuation = false ∧ "leading" ∈ r.html.classes
      ∧ "continued" ∉ r.html.classes)
    ∧ (let prev := sampleMessage "m1" CHAT_MESSAGE_TYPES.IC (some "t1") (some "Bob") "u1"
          (some []) none
       let next := sampleMessage "m2" CHAT_MESSAGE_TYPES.IC (some "t2") (some "Bob") "u1"
          (some []) none
       ∃ r, process (sampleEnv [prev, next] false false) next sampleHtml
            (sampleMessageData next "Bob" Names.absent) = Except.ok r
        ∧ r.renderData.isContinuation = false ∧ "leading" ∈ r.html.classes
        ∧ "continued" ∉ r.html.classes)
    ∧ (let prev := sampleMessage "m1" CHAT_MESSAGE_TYPES.IC none (some "Bob") "u1" none none
       let next := sampleMessage "m2" CHAT_MESSAGE_TYPES.IC none (some "Bob") "u1" none none
       ∃ r, process (sampleEnv [prev, next] false false) next sampleHtml
            (sampleMessageData next "Bob" Names.absent) = Except.ok r
        ∧ r.renderData.isContinuation = false ∧ "leading" ∈ r.html.classes
        ∧ "continued" ∉ r.html.classes)
    ∧ (let prev := spokenBy "a1"
          (sampleMessage "m1" CHAT_MESSAGE_TYPES.IC none (some "") "u1" (some []) none)
       let next := spokenBy "a1"
          (sampleMessage "m2" CHAT_MESSAGE_TYPES.IC none (some "") "u1" (some []) none)
       ∃ r, process (sampleEnv [prev, next] false false) next sampleHtml
            (sampleMessageData next "" Names.absent) = Except.ok r
        ∧ r.renderData.isContinuation = false ∧ "leading" ∈ r.html.classes
        ∧ "continued" ∉ r.html.classes) :=
  ⟨⟨_, rfl, by decide, by decide, by decide⟩, ⟨_, rfl, by decide, by decide, by decide⟩,
    ⟨_, rfl, by decide, by decide, by decide⟩, ⟨_, rfl, by decide, by decide, by decide⟩⟩

/-- C10 (amended): let the log end, as far as visible entries go, with `prev` and
then `chatMessage`, both in-character, both with the same non-empty speaker alias
other than the one of the description command, with identical token ids if either
speaker has one, both with the recipient attribute present and empty, with equal
real target lists whenever both carry one, and `forceLeading` unset on
`chatMessage`; and let the speaker of `chatMessage` load an actor whose token image
is not empty. Then `process` returns, decides that `chatMessage` is a continuation,
adds the class `continued` and does not add the class `leading`. -/
theorem C10_public_same_alias_continued (env : Env) (chatMessage prev : ChatMessage)
    (html : Html) (messageData : RenderMessageData) (pre mid post : List ChatMessage)
    (a : String)
    (hlog : env.game.messages = pre ++ prev :: (mid ++ chatMessage :: post))
    (hprevVisible : prev.visible = true) (_hvisible : chatMessage.visible = true)
    (hmid : ∀ x, x ∈ mid → x.visible = false) (_hpost : ∀ x, x ∈ post → x.visible = false)
    (hid : ∀ x, x ∈ pre ++ prev :: mid → x.id ≠ chatMessage.id)
    (hprevKind : prev.data.type = CHAT_MESSAGE_TYPES.IC)
    (hkind : chatMessage.data.type = CHAT_MESSAGE_TYPES.IC)
    (hprevAlias : prev.data.speaker.alias = some a)
    (halias : chatMessage.data.speaker.alias = some a)
    (hnonempty : a ≠ "") (hsentinel : a ≠ "#CGMP_DESCRIPTION")
    (htoken : (truthy prev.data.speaker.token = true ∨
        truthy chatMessage.data.speaker.token = true) →
      prev.data.speaker.token = chatMessage.data.speaker.token)
    (hprevWhisper : prev.data.whisper = some []) (hwhisper : chatMessage.data.whisper = some [])
    (hreal : ∀ p n, getRealWhisperTargets prev = some p →
      getRealWhisperTargets chatMessage = some n → p = n)
    (hforce : chatMessage.data.forceLeading = false)
    (himage : getChatTokenImage (loadActorForChatMessage env.game messageData) ≠ "") :
    ∃ r, process env chatMessage html messageData = Except.ok r
      ∧ r.renderData.isContinuation = true
      ∧ "continued" ∈ r.html.classes
      ∧ ("leading" ∈ r.html.classes → "leading" ∈ html.classes) := by
  have hload := loadPreviousMessage_of_split env.game chatMessage prev pre mid post hlog
    hprevVisible hmid hid
  have hvalid : isValidGroupableType chatMessage = true := by
    simp [isValidGroupableType, hkind, halias, CGMP_DESCRIPTION, hsentinel]
  have hactor : isFromTheSameActor prev.data chatMessage.data = true := by
    unfold isFromTheSameActor
    simp only []
    by_cases h : (truthy prev.data.speaker.token || truthy chatMessage.data.speaker.token) = true
    · rw [if_pos h]
      simp only [Bool.or_eq_true] at h
      simp [htoken h]
    · rw [if_neg h]
      have halias2 : truthy (some a) = true := by
        simp [truthy, hnonempty]
      simp [halias2, hprevAlias, halias]
  have hsame : (sameWhisperRecipients prev chatMessage).1 = true := by
    unfold sameWhisperRecipients
    rw [hprevWhisper, hwhisper]
    cases hp : getRealWhisperTargets prev <;> cases hn : getRealWhisperTargets chatMessage <;>
      simp [arrayEquals]
    exact hreal _ _ hp hn
  obtain ⟨r, hr, _, hcont, _, _, hclasses⟩ :=
    process_returns env chatMessage html messageData himage
  have hcont2 : r.renderData.isContinuation = true := by
    rw [hcont, hforce, hvalid, hload]
    simp [isContinuationFromPreviousMessage, hactor, hsame, hprevKind, hkind]
  refine ⟨r, hr, hcont2, ?_, ?_⟩
  · rw [hclasses, hcont2]
    simp [CLASS_NAMES.CONTINUED]
  · rw [hclasses, hcont2]
    cases env.LITE_MODE <;>
      simp [CLASS_NAMES.CONTINUED, CLASS_NAMES.MODIFIED, CLASS_NAMES.ROLL, CLASS_NAMES.ME,
        CLASS_NAMES.LITE_UI, CLASS_NAMES.ROLL_UI]

/-- The scenario of the specification: two public in-character messages of "Bob",
whom the actor `a1` answers to, with a hidden entry between them, in full mode. -/
theorem C10_public_same_alias_continued_witness :
    ∃ r, process
        (sampleEnv [
          sampleMessage "m1" CHAT_MESSAGE_TYPES.IC none (some "Bob") "u1" (some []) none,
          hidden
            (sampleMessage "h" CHAT_MESSAGE_TYPES.ROLL none (some "Ann") "u2" (some []) none),
          sampleMessage "m2" CHAT_MESSAGE_TYPES.IC none (some "Bob") "u1" (some []) none]
          false false)
        (sampleMessage "m2" CHAT_MESSAGE_TYPES.IC none (some "Bob") "u1" (some []) none)
        sampleHtml
        (sampleMessageData
          (sampleMessage "m2" CHAT_MESSAGE_TYPES.IC none (some "Bob") "u1" (some []) none)
          "Bob" Names.absent) = Except.ok r
      ∧ r.renderData.isContinuation = true
      ∧ "continued" ∈ r.html.classes
      ∧ ("leading" ∈ r.html.classes → "leading" ∈ sampleHtml.classes) :=
  C10_public_same_alias_continued _ _
    (sampleMessage "m1" CHAT_MESSAGE_TYPES.IC none (some "Bob") "u1" (some []) none) _ _
    []
    [hidden (sampleMessage "h" CHAT_MESSAGE_TYPES.ROLL none (some "Ann") "u2" (some []) none)]
    [] "Bob" rfl (by decide) (by decide) (by decide) (by simp) (by decide)
    (by decide) (by decide) (by decide) (by decide) (by decide) (by decide)
    (by decide) (by decide) (by decide)
    (by intro p n hp _; simp [getRealWhisperTargets, sampleMessage] at hp)
    (by decide) (by decide)

/-! ## Groupable kinds -/

/-- C12: `isValidGroupableType` is true exactly when the kind of the message is one
of OOC, IC, WHISPER and its speaker alias is not `#CGMP_DESCRIPTION`. -/
theorem C12_groupable_for_continuation (chatMessage : ChatMessage) :
    isValidGroupableType chatMessage = true ↔
      (chatMessage.data.type = CHAT_MESSAGE_TYPES.OOC
        ∨ chatMessage.data.type = CHAT_MESSAGE_TYPES.IC
        ∨ chatMessage.data.type = CHAT_MESSAGE_TYPES.WHISPER)
      ∧ chatMessage.data.speaker.alias ≠ some "#CGMP_DESCRIPTION" := by
  unfold isValidGroupableType
  cases chatMessage.data.type <;> simp [CGMP_DESCRIPTION]

/-- An in-character message of "Bob" is groupable for continuation. -/
theorem C12_groupable_for_continuation_witness :
    isValidGroupableType
      (sampleMessage "m1" CHAT_MESSAGE_TYPES.IC none (some "Bob") "u1" (some []) none) = true :=
  (C12_groupable_for_continuation _).mpr ⟨Or.inr (Or.inl (by decide)), by decide⟩

/-- C13: `isRerenderableType` is true exactly when the kind of the message is one of
OOC, IC, WHISPER, OTHER, ROLL and its speaker alias is not `#CGMP_DESCRIPTION`. So
every message that is groupable for continuation can be rendered again, and a ROLL
or OTHER message with another alias can be rendered again without being groupable
for continuation. -/
theorem C13_rerenderable_is_broader (chatMessage : ChatMessage) :
    (isRerenderableType chatMessage = true ↔
      (chatMessage.data.type = CHAT_MESSAGE_TYPES.OOC
        ∨ chatMessage.data.type = CHAT_MESSAGE_TYPES.IC
        ∨ chatMessage.data.type = CHAT_MESSAGE_TYPES.WHISPER
        ∨ chatMessage.data.type = CHAT_MESSAGE_TYPES.OTHER
        ∨ chatMessage.data.type = CHAT_MESSAGE_TYPES.ROLL)
      ∧ chatMessage.data.speaker.alias ≠ some "#CGMP_DESCRIPTION")
    ∧ (isValidGroupableType chatMessage = true → isRerenderableType chatMessage = true)
    ∧ ((chatMessage.data.type = CHAT_MESSAGE_TYPES.ROLL
          ∨ chatMessage.data.type = CHAT_MESSAGE_TYPES.OTHER) →
        chatMessage.data.speaker.alias ≠ some "#CGMP_DESCRIPTION" →
        isRerenderableType chatMessage = true ∧ isValidGroupableType chatMessage = false) := by
  unfold isRerenderableType isValidGroupableType
  cases chatMessage.data.type <;> simp [CGMP_DESCRIPTION]

/-- A dice roll of "Bob" can be rendered again and is not groupable for continuation. -/
theorem C13_rerenderable_is_broader_witness :
    isRerenderableType
        (sampleMessage "m1" CHAT_MESSAGE_TYPES.ROLL none (some "Bob") "u1" (some []) none) = true
    ∧ isValidGroupableType
        (sampleMessage "m1" CHAT_MESSAGE_TYPES.ROLL none (some "Bob") "u1" (some []) none)
      = false :=
  (C13_rerenderable_is_broader _).2.2 (Or.inl (by decide)) (by decide)

/-! ## Dice rolls -/

/-- C11: the code does what the claim says for a message of kind ROLL whenever the
call of `process` gets past the avatar, that is whenever the token image of the
loaded actor is not empty: the decision is "no continuation", the classes `leading`
and `roll` are added and the class `continued` is not. It does not for every dice
roll: for a roll of a speaker "Carol" that no actor answers to, right after an
in-character message of the same speaker, `process` raises at the call of the
missing method `getUserImage`, and the element has the class `roll-ui` alone. -/
theorem C11_dice_roll_raises_without_image :
    (∀ (env : Env) (chatMessage : ChatMessage) (html : Html) (messageData : RenderMessageData),
      chatMessage.data.type = CHAT_MESSAGE_TYPES.ROLL →
      getChatTokenImage (loadActorForChatMessage env.game messageData) ≠ "" →
      ∃ r, process env chatMessage html messageData = Except.ok r
        ∧ r.renderData.isContinuation = false
        ∧ "leading" ∈ r.html.classes
        ∧ "roll" ∈ r.html.classes
        ∧ ("continued" ∈ r.html.classes → "continued" ∈ html.classes))
    ∧ (let prev := sampleMessage "m1" CHAT_MESSAGE_TYPES.IC none (some "Carol") "u1"
          (some []) none
       let next := sampleMessage "m2" CHAT_MESSAGE_TYPES.ROLL none (some "Carol") "u1"
          (some []) none
       next.data.type = CHAT_MESSAGE_TYPES.ROLL
        ∧ process (sampleEnv [prev, next] false false) next sampleHtml
            (sampleMessageData next "Carol" Names.absent)
          = Except.error {
              error := "TypeError: this.getUserImage is not a function",
              html := { classes := ["roll-ui"], style := none, dnd5eRedFull := false,
                        whisperToElement := false } }) := by
  constructor
  · intro env chatMessage html messageData hroll himage
    obtain ⟨r, hr, _, hcont, _, _, hclasses⟩ :=
      process_returns env chatMessage html messageData himage
    have hvalid : isValidGroupableType chatMessage = false := by
      simp [isValidGroupableType, hroll]
    have hcont2 : r.renderData.isContinuation = false := by
      rw [hcont, hvalid]; simp
    refine ⟨r, hr, hcont2, ?_, ?_, ?_⟩
    · rw [hclasses, hcont2]
      simp [CLASS_NAMES.LEADING]
    · rw [hclasses, hroll]
      simp [CLASS_NAMES.ROLL]
    · rw [hclasses, hcont2, hroll]
      cases env.LITE_MODE <;>
        simp [CLASS_NAMES.LEADING, CLASS_NAMES.MODIFIED, CLASS_NAMES.ROLL, CLASS_NAMES.ME,
          CLASS_NAMES.LITE_UI, CLASS_NAMES.ROLL_UI]
  · exact ⟨by decide, rfl⟩

/-- The scenario of the specification with a speaker the actor `a1` answers to: a
dice roll of token `t1` right after an in-character message of the same token,
alias, author and recipients returns and is leading. -/
theorem C11_dice_roll_raises_without_image_witness :
    ∃ r, process
        (sampleEnv [
          sampleMessage "m1" CHAT_MESSAGE_TYPES.IC (some "t1") (some "Bob") "u1" (some []) none,
          sampleMessage "m2" CHAT_MESSAGE_TYPES.ROLL (some "t1") (some "Bob") "u1" (some [])
            none] false false)
        (sampleMessage "m2" CHAT_MESSAGE_TYPES.ROLL (some "t1") (some "Bob") "u1" (some []) none)
        sampleHtml
        (sampleMessageData
          (sampleMessage "m2" CHAT_MESSAGE_TYPES.ROLL (some "t1") (some "Bob") "u1" (some [])
            none)
          "Bob" Names.absent) = Except.ok r
      ∧ r.renderData.isContinuation = false ∧ "leading" ∈ r.html.classes
      ∧ "roll" ∈ r.html.classes :=
  match C11_dice_roll_raises_without_image.1 _ _ sampleHtml _ (by decide) (by decide) with
  | ⟨r, hr, hcont, hleading, hroll, _⟩ => ⟨r, hr, hcont, hleading, hroll⟩

/-! ## Leading or continued -/

/-- C16: the code does what the claim says whenever the call of `process` gets past
the avatar, that is whenever the token image of the loaded actor is not empty: it
adds `continued` when its continuation decision is true and `leading` when it is
false, so an element that had neither class ends with exactly one of them, and the
decision is true exactly when `forceLeading` is unset, the message is groupable for
continuation, a preceding visible message exists and
`isContinuationFromPreviousMessage` holds for that pair. It does not for every
message: for an in-character message of a speaker "Carol" that no actor answers to,
`process` raises at the call of the missing method `getUserImage`, and the element
has the class `lite-ui` alone, neither `leading` nor `continued`. -/
theorem C16_leading_or_continued_raises_without_image :
    (∀ (env : Env) (chatMessage : ChatMessage) (html : Html) (messageData : RenderMessageData),
      getChatTokenImage (loadActorForChatMessage env.game messageData) ≠ "" →
      ∃ r, process env chatMessage html messageData = Except.ok r
        ∧ ("continued" ∈ r.html.classes ↔
            "continued" ∈ html.classes ∨ r.renderData.isContinuation = true)
        ∧ ("leading" ∈ r.html.classes ↔
            "leading" ∈ html.classes ∨ r.renderData.isContinuation = false)
        ∧ (r.renderData.isContinuation = true ↔
            chatMessage.data.forceLeading = false ∧ isValidGroupableType chatMessage = true
              ∧ ∃ prev, loadPreviousMessage env.game chatMessage = some prev
                ∧ (isContinuationFromPreviousMessage prev chatMessage).1 = true)
        ∧ ("leading" ∉ html.classes → "continued" ∉ html.classes →
            (("continued" ∈ r.html.classes ∧ "leading" ∉ r.html.classes)
              ∨ ("leading" ∈ r.html.classes ∧ "continued" ∉ r.html.classes))))
    ∧ (let m := sampleMessage "m1" CHAT_MESSAGE_TYPES.IC none (some "Carol") "u1" (some []) none
       process (sampleEnv [m] true false) m sampleHtml (sampleMessageData m "Carol" Names.absent)
          = Except.error {
              error := "TypeError: this.getUserImage is not a function",
              html := { classes := ["lite-ui"], style := none, dnd5eRedFull := false,
                        whisperToElement := false } }) := by
  constructor
  · intro env chatMessage html messageData himage
    obtain ⟨r, hr, _, hcont, _, _, hclasses⟩ :=
      process_returns env chatMessage html messageData himage
    have hcontinued : "continued" ∈ r.html.classes ↔
        "continued" ∈ html.classes ∨ r.renderData.isContinuation = true := by
      rw [hclasses]
      cases env.LITE_MODE <;> cases r.renderData.isContinuation <;>
        simp [CLASS_NAMES.LEADING, CLASS_NAMES.CONTINUED, CLASS_NAMES.MODIFIED,
          CLASS_NAMES.ROLL, CLASS_NAMES.ME, CLASS_NAMES.LITE_UI, CLASS_NAMES.ROLL_UI]
    have hleading : "leading" ∈ r.html.classes ↔
        "leading" ∈ html.classes ∨ r.renderData.isContinuation = false := by
      rw [hclasses]
      cases env.LITE_MODE <;> cases r.renderData.isContinuation <;>
        simp [CLASS_NAMES.LEADING, CLASS_NAMES.CONTINUED, CLASS_NAMES.MODIFIED,
          CLASS_NAMES.ROLL, CLASS_NAMES.ME, CLASS_NAMES.LITE_UI, CLASS_NAMES.ROLL_UI]
    refine ⟨r, hr, hcontinued, hleading, ?_, ?_⟩
    · rw [hcont]
      cases chatMessage.data.forceLeading <;> cases isValidGroupableType chatMessage <;>
        cases loadPreviousMessage env.game chatMessage <;> simp
    · intro hl hc
      rw [hcontinued, hleading]
      cases r.renderData.isContinuation <;> simp [hl, hc]
  · rfl

/-- Two public in-character messages of "Bob", whom the actor `a1` answers to, on a
fresh element in lite mode: the second returns with the class `continued` and
without the class `leading`. -/
theorem C16_leading_or_continued_raises_without_image_witness :
    ∃ r, process
        (sampleEnv [
          sampleMessage "m1" CHAT_MESSAGE_TYPES.IC none (some "Bob") "u1" (some []) none,
          sampleMessage "m2" CHAT_MESSAGE_TYPES.IC none (some "Bob") "u1" (some []) none]
          true false)
        (sampleMessage "m2" CHAT_MESSAGE_TYPES.IC none (some "Bob") "u1" (some []) none)
        sampleHtml
        (sampleMessageData
          (sampleMessage "m2" CHAT_MESSAGE_TYPES.IC none (some "Bob") "u1" (some []) none)
          "Bob" Names.absent) = Except.ok r
      ∧ "continued" ∈ r.html.classes ∧ "leading" ∉ r.html.classes :=
  match C16_leading_or_continued_raises_without_image.1
      (sampleEnv [
        sampleMessage "m1" CHAT_MESSAGE_TYPES.IC none (some "Bob") "u1" (some []) none,
        sampleMessage "m2" CHAT_MESSAGE_TYPES.IC none (some "Bob") "u1" (some []) none]
        true false)
      (sampleMessage "m2" CHAT_MESSAGE_TYPES.IC none (some "Bob") "u1" (some []) none)
      sampleHtml
      (sampleMessageData
        (sampleMessage "m2" CHAT_MESSAGE_TYPES.IC none (some "Bob") "u1" (some []) none)
        "Bob" Names.absent) (by decide) with
  | ⟨r, hr, hcontinued, hleading, hdecision, _⟩ =>
    have hcont : r.renderData.isContinuation = true :=
      hdecision.mpr ⟨by decide, by decide,
        sampleMessage "m1" CHAT_MESSAGE_TYPES.IC none (some "Bob") "u1" (some []) none,
        by decide, by decide⟩
    ⟨r, hr, hcontinued.mpr (Or.inr hcont),
      fun h => (hleading.mp h).elim (fun h2 => absurd h2 (by decide))
        (fun h2 => absurd (hcont.symm.trans h2) (by decide))⟩

/-! ## Unresolved speakers -/

/-- C17: for a speaker that matches no token, no actor id and no actor name,
`loadActorForChatMessage` returns nothing and `getChatTokenImage` of nothing is the
empty string, as the claim says, but the avatar is not computed: `process` then calls
the method `getUserImage`, which no class defines, and raises. So it does in lite
mode with the portrait module for a message of a speaker "Carol" in a game whose
only actor is "Bob", where the code expects an avatar without an actor. -/
theorem C17_unresolved_speaker_raises :
    (∀ (env : Env) (chatMessage : ChatMessage) (html : Html) (messageData : RenderMessageData),
      (∀ t, messageData.message.speaker.token = some t → t ≠ "" →
        env.game.actors.tokens.lookup t = none) →
      (∀ a, messageData.message.speaker.actor = some a →
        ∀ x, x ∈ env.game.actors.entries → x.id ≠ a) →
      (∀ x, x ∈ env.game.actors.entries → some x.name ≠ messageData.message.speaker.alias) →
      loadActorForChatMessage env.game messageData = none
        ∧ getChatTokenImage none = ""
        ∧ process env chatMessage html messageData =
          Except.error {
            error := "TypeError: this.getUserImage is not a function",
            html := if env.LITE_MODE then _addClass html CLASS_NAMES.LITE_UI
                    else _addClass html CLASS_NAMES.ROLL_UI })
    ∧ (let m := sampleMessage "m1" CHAT_MESSAGE_TYPES.IC none (some "Carol") "u1" (some []) none
       loadActorForChatMessage (sampleEnv [m] true true).game
          (sampleMessageData m "Carol" Names.absent) = none
        ∧ process (sampleEnv [m] true true) m sampleHtml
            (sampleMessageData m "Carol" Names.absent)
          = Except.error {
              error := "TypeError: this.getUserImage is not a function",
              html := { classes := ["lite-ui"], style := none, dnd5eRedFull := false,
                        whisperToElement := false } }) := by
  constructor
  · intro env chatMessage html messageData htoken hactor hname
    have hload := loadActorForChatMessage_unmatched env.game messageData htoken hactor hname
    refine ⟨hload, rfl, ?_⟩
    apply process_raises
    rw [hload]
    rfl
  · exact ⟨by decide, rfl⟩

/-- The speaker "Carol" with the token id `t3` in the game whose only actor is "Bob",
reached by the token ids `t1` and `t2`: no actor is loaded and the call raises. -/
theorem C17_unresolved_speaker_raises_witness :
    loadActorForChatMessage
        (sampleEnv
          [sampleMessage "m1" CHAT_MESSAGE_TYPES.IC (some "t3") (some "Carol") "u1" (some [])
            none] false false).game
        (sampleMessageData
          (sampleMessage "m1" CHAT_MESSAGE_TYPES.IC (some "t3") (some "Carol") "u1" (some [])
            none)
          "Carol" Names.absent) = none :=
  (C17_unresolved_speaker_raises.1
    (sampleEnv
      [sampleMessage "m1" CHAT_MESSAGE_TYPES.IC (some "t3") (some "Carol") "u1" (some []) none]
      false false)
    (sampleMessage "m1" CHAT_MESSAGE_TYPES.IC (some "t3") (some "Carol") "u1" (some []) none)
    sampleHtml
    (sampleMessageData
      (sampleMessage "m1" CHAT_MESSAGE_TYPES.IC (some "t3") (some "Carol") "u1" (some []) none)
      "Carol" Names.absent)
    (by
      intro t ht _
      have : t = "t3" := by simpa [sampleMessageData, sampleMessage] using ht.symm
      subst this
      decide)
    (by
      intro a ha
      simp [sampleMessageData, sampleMessage] at ha)
    (by
      intro x hx
      have hx2 : x = sampleActor := by
        simpa [sampleEnv, sampleGameWithActor] using hx
      subst hx2
      decide)).1

/-! ## The continued message -/

/-- C18 (as stated, refuted): `process` returns and classes a message of token `t1`
and alias `Bob` as a continuation of the preceding visible message, an in-character
message of the same token whose alias is `#CGMP_DESCRIPTION`, although that message
is not groupable for continuation. -/
theorem C18_counterexample :
    (let prev := sampleMessage "m1" CHAT_MESSAGE_TYPES.IC (some "t1") (some "#CGMP_DESCRIPTION")
        "u1" (some []) none
     let next := sampleMessage "m2" CHAT_MESSAGE_TYPES.IC (some "t1") (some "Bob") "u1"
        (some []) none
     (∃ r, process (sampleEnv [prev, next] false false) next sampleHtml
          (sampleMessageData next "Bob" Names.absent) = Except.ok r
        ∧ r.renderData.isContinuation = true
        ∧ "continued" ∈ r.html.classes)
      ∧ loadPreviousMessage (sampleEnv [prev, next] false false).game next = some prev
      ∧ isValidGroupableType prev = false) :=
  ⟨⟨_, rfl, by decide, by decide⟩, by decide, by decide⟩

/-- C18 (amended): whenever `process` returns and classes a message as a
continuation, a preceding visible message exists, its kind is that of the message
and one of OOC, IC, WHISPER, and, when neither speaker has a token id, its speaker
alias is not `#CGMP_DESCRIPTION`, so that it is groupable for continuation. -/
theorem C18_continued_message_kind (env : Env) (chatMessage : ChatMessage) (html : Html)
    (messageData : RenderMessageData) (r : ProcessResult)
    (hrun : process env chatMessage html messageData = Except.ok r)
    (hcont : r.renderData.isContinuation = true) :
    ∃ prev, loadPreviousMessage env.game chatMessage = some prev
      ∧ prev.data.type = chatMessage.data.type
      ∧ (prev.data.type = CHAT_MESSAGE_TYPES.OOC ∨ prev.data.type = CHAT_MESSAGE_TYPES.IC
          ∨ prev.data.type = CHAT_MESSAGE_TYPES.WHISPER)
      ∧ (truthy prev.data.speaker.token = false →
          truthy chatMessage.data.speaker.token = false →
          prev.data.speaker.alias ≠ some "#CGMP_DESCRIPTION"
            ∧ isValidGroupableType prev = true) := by
  have himage : getChatTokenImage (loadActorForChatMessage env.game messageData) ≠ "" := by
    intro hempty
    rw [process_raises env chatMessage html messageData hempty] at hrun
    exact absurd hrun (by simp)
  obtain ⟨r2, hr2, _, hcont2, _, _, _⟩ :=
    process_returns env chatMessage html messageData himage
  have hsame : r2 = r := Except.ok.inj (hr2.symm.trans hrun)
  subst hsame
  rw [hcont2] at hcont
  simp only [Bool.and_eq_true] at hcont
  obtain ⟨⟨_, hvalid⟩, hmatch⟩ := hcont
  cases hload : loadPreviousMessage env.game chatMessage with
  | none => rw [hload] at hmatch; exact absurd hmatch (by simp)
  | some prev =>
    rw [hload] at hmatch
    simp only [isContinuationFromPreviousMessage, Bool.and_eq_true, decide_eq_true_eq] at hmatch
    obtain ⟨⟨hactor, _⟩, hkind⟩ := hmatch
    have hvalid2 : (chatMessage.data.type = CHAT_MESSAGE_TYPES.OOC
        ∨ chatMessage.data.type = CHAT_MESSAGE_TYPES.IC
        ∨ chatMessage.data.type = CHAT_MESSAGE_TYPES.WHISPER)
        ∧ chatMessage.data.speaker.alias ≠ some "#CGMP_DESCRIPTION" := by
      revert hvalid
      unfold isValidGroupableType
      cases chatMessage.data.type <;> simp [CGMP_DESCRIPTION]
    have hprevKind : prev.data.type = CHAT_MESSAGE_TYPES.OOC
        ∨ prev.data.type = CHAT_MESSAGE_TYPES.IC
        ∨ prev.data.type = CHAT_MESSAGE_TYPES.WHISPER := by
      rw [hkind]; exact hvalid2.1
    refine ⟨prev, rfl, hkind, hprevKind, ?_⟩
    intro hp hn
    have halias : prev.data.speaker.alias ≠ some "#CGMP_DESCRIPTION" := by
      intro hsentinel
      unfold isFromTheSameActor at hactor
      simp only [hp, hn, Bool.or_self, Bool.false_eq_true, if_false] at hactor
      have htruthy : truthy prev.data.speaker.alias = true := by
        rw [hsentinel]; decide
      simp only [htruthy, Bool.true_or, if_true, decide_eq_true_eq] at hactor
      exact hvalid2.2 (hactor ▸ hsentinel)
    refine ⟨halias, ?_⟩
    unfold isValidGroupableType
    rcases hprevKind with h | h | h <;> simp [h, CGMP_DESCRIPTION, halias]

/-- Two public in-character messages of "Bob" without token ids, whom the actor `a1`
answers to: the second continues the first, which is in-character and groupable for
continuation. -/
theorem C18_continued_message_kind_witness :
    ∃ prev, loadPreviousMessage
        (sampleEnv [
          sampleMessage "m1" CHAT_MESSAGE_TYPES.IC none (some "Bob") "u1" (some []) none,
          sampleMessage "m2" CHAT_MESSAGE_TYPES.IC none (some "Bob") "u1" (some []) none]
          false false).game
        (sampleMessage "m2" CHAT_MESSAGE_TYPES.IC none (some "Bob") "u1" (some []) none)
        = some prev
      ∧ prev.data.type = CHAT_MESSAGE_TYPES.IC
      ∧ isValidGroupableType prev = true :=
  match C18_continued_message_kind
      (sampleEnv [
        sampleMessage "m1" CHAT_MESSAGE_TYPES.IC none (some "Bob") "u1" (some []) none,
        sampleMessage "m2" CHAT_MESSAGE_TYPES.IC none (some "Bob") "u1" (some []) none]
        false false)
      (sampleMessage "m2" CHAT_MESSAGE_TYPES.IC none (some "Bob") "u1" (some []) none)
      sampleHtml
      (sampleMessageData
        (sampleMessage "m2" CHAT_MESSAGE_TYPES.IC none (some "Bob") "u1" (some []) none)
        "Bob" Names.absent) _ rfl (by decide) with
  | ⟨prev, hload, hkind, _, hgroupable⟩ =>
    have hprev : prev
        = sampleMessage "m1" CHAT_MESSAGE_TYPES.IC none (some "Bob") "u1" (some []) none :=
      Option.some.inj (hload.symm.trans (by decide))
    ⟨prev, hload, hkind.trans (by decide),
      (hgroupable (by rw [hprev]; decide) (by decide)).2⟩

/-! ## The whisper label -/

/-- C14 (as stated, refuted): the label of a single target that is not the speaker
alias is not `"(To <targets>)"` in full mode and `"To <targets>"` in lite mode.
For the target `Alice` of the speaker `Bob`, `process` returns the labels
`" (To  (To Alice))"` and `"To:  (To Alice)"`; each of `getWhisperTargets` and the
two formatters alone writes a leading space or a colon that the claim does not have;
and for a target written `e` with a combining accent, which is not the alias `é` but
compares equal to it, `process` returns the empty label. -/
theorem C14_counterexample :
    (let m := sampleMessage "m1" CHAT_MESSAGE_TYPES.WHISPER none (some "Bob") "u1"
        (some ["u2"]) none
     "Alice" ≠ "Bob"
      ∧ (∃ r, process (sampleEnv [m] false false) m sampleHtml
            (sampleMessageData m "Bob" (Names.str "Alice")) = Except.ok r
          ∧ r.renderData.whisperTo = " (To  (To Alice))"
          ∧ r.renderData.whisperTo ≠ "(To Alice)")
      ∧ (∃ r, process (sampleEnv [m] true false) m sampleHtml
            (sampleMessageData m "Bob" (Names.str "Alice")) = Except.ok r
          ∧ r.whisperString = some "To:  (To Alice)"
          ∧ r.whisperString ≠ some "To Alice"))
    ∧ (getWhisperTargets sampleLocaleCompare (Names.str "Alice") "Bob" = " (To Alice)"
      ∧ formatWhisperNonLite "Alice" = " (To Alice)"
      ∧ formatWhisperNonLite "Alice" ≠ "(To Alice)"
      ∧ formatWhisperLite "Alice" = "To: Alice"
      ∧ formatWhisperLite "Alice" ≠ "To Alice")
    ∧ (let m := sampleMessage "m1" CHAT_MESSAGE_TYPES.WHISPER (some "t1") (some "\u00e9") "u1"
          (some ["u2"]) none
       "e\u0301" ≠ "\u00e9"
        ∧ (∃ r, process (sampleEnv [m] false false) m sampleHtml
              (sampleMessageData m "\u00e9" (Names.str "e\u0301")) = Except.ok r
            ∧ r.renderData.whisperTo = ""
            ∧ r.renderData.whisperTo ≠ "(To e\u0301)")
        ∧ (∃ r, process (sampleEnv [m] true false) m sampleHtml
              (sampleMessageData m "\u00e9" (Names.str "e\u0301")) = Except.ok r
            ∧ r.whisperString = some ""
            ∧ r.whisperString ≠ some "To e\u0301")) :=
  ⟨⟨by decide, ⟨_, rfl, by decide, by decide⟩, ⟨_, rfl, by decide, by decide⟩⟩,
    ⟨by decide, by decide, by decide, by decide, by decide⟩,
    ⟨by decide, ⟨_, rfl, by decide, by decide⟩, ⟨_, rfl, by decide, by decide⟩⟩⟩

/-- C14 (amended): for a single target string `s` whose comparison with the speaker
alias is not `0`, `getWhisperTargets` returns `" (To s)"`, with a leading space; on
a non-empty string `t` the formatter of full mode returns `" (To t)"`, with a leading
space, and the formatter of lite mode returns `"To: t"`, with a colon and without
parentheses. -/
theorem C14_single_target_label (localeCompare : String → String → Int) (s speaker : String)
    (hdiff : localeCompare s speaker ≠ 0) :
    getWhisperTargets localeCompare (Names.str s) speaker = " (To " ++ s ++ ")"
    ∧ ∀ t : String, t ≠ "" →
        formatWhisperNonLite t = " (To " ++ t ++ ")" ∧ formatWhisperLite t = "To: " ++ t := by
  constructor
  · simp [getWhisperTargets, hdiff]
  · intro t ht
    simp [formatWhisperNonLite, formatWhisperLite, ht]

/-- The target `"Alice"` of the speaker `"Bob"`, and the two formatters on `"Alice"`. -/
theorem C14_single_target_label_witness :
    getWhisperTargets sampleLocaleCompare (Names.str "Alice") "Bob" = " (To Alice)"
    ∧ formatWhisperNonLite "Alice" = " (To Alice)"
    ∧ formatWhisperLite "Alice" = "To: Alice" :=
  ⟨(C14_single_target_label sampleLocaleCompare "Alice" "Bob" (by decide)).1.trans (by decide),
    ((C14_single_target_label sampleLocaleCompare "Alice" "Bob" (by decide)).2 "Alice"
      (by decide)).1.trans (by decide),
    ((C14_single_target_label sampleLocaleCompare "Alice" "Bob" (by decide)).2 "Alice"
      (by decide)).2.trans (by decide)⟩

/-- C15 (as stated, refuted): the label of a sequence is not built from the entries
equal to the speaker alias alone. For the alias `é` and the sequence of `e` with a
combining accent and `Alice`, no entry is the alias, yet the label holds the first
entry, which compares equal to the alias. -/
theorem C15_counterexample :
    "e\u0301" ≠ "\u00e9"
    ∧ ["e\u0301", "Alice"].filter (fun name => name == "\u00e9") = []
    ∧ getWhisperTargets sampleLocaleCompare (Names.arr ["e\u0301", "Alice"]) "\u00e9"
      = " (To e\u0301)"
    ∧ getWhisperTargets sampleLocaleCompare (Names.arr ["e\u0301", "Alice"]) "\u00e9"
      ≠ " (To )" := by
  decide

/-- C15 (amended): for a sequence of names, `getWhisperTargets` joins with commas the
entries whose comparison with the speaker alias is `0`, in their order, and puts
them in the label; an entry takes part exactly when it is in the sequence and
compares equal to the alias. For absent targets and for a single string whose
comparison with the alias is `0` it returns the empty string. -/
theorem C15_sequence_keeps_speaker (localeCompare : String → String → Int) (l : List String)
    (speaker : String) :
    getWhisperTargets localeCompare (Names.arr l) speaker =
      " (To " ++ String.intercalate ","
        (l.filter (fun name => decide (localeCompare name speaker = 0))) ++ ")"
    ∧ (l.filter (fun name => decide (localeCompare name speaker = 0))).Sublist l
    ∧ (∀ name, name ∈ l.filter (fun name => decide (localeCompare name speaker = 0)) ↔
        name ∈ l ∧ localeCompare name speaker = 0)
    ∧ getWhisperTargets localeCompare Names.absent speaker = ""
    ∧ (∀ s, localeCompare s speaker = 0 →
        getWhisperTargets localeCompare (Names.str s) speaker = "") := by
  refine ⟨rfl, List.filter_sublist l, ?_, rfl, ?_⟩
  · intro name
    simp [List.mem_filter]
  · intro s hs
    simp [getWhisperTargets, hs]

/-- The sequence `[Alice, Bob, Carol, Bob]` of the speaker `"Bob"` gives the label
of the two entries `Bob`, and the single string `Bob` gives the empty label. -/
theorem C15_sequence_keeps_speaker_witness :
    getWhisperTargets sampleLocaleCompare (Names.arr ["Alice", "Bob", "Carol", "Bob"]) "Bob"
      = " (To Bob,Bob)"
    ∧ getWhisperTargets sampleLocaleCompare (Names.str "Bob") "Bob" = "" :=
  ⟨(C15_sequence_keeps_speaker sampleLocaleCompare ["Alice", "Bob", "Carol", "Bob"]
      "Bob").1.trans (by decide),
    (C15_sequence_keeps_speaker sampleLocaleCompare ["Alice", "Bob", "Carol", "Bob"]
      "Bob").2.2.2.2 "Bob" (by decide)⟩

/-! ## Symmetry and transitivity -/

/-- C19: `isContinuationFromPreviousMessage` gives the same result, and writes the
same console lines, for a pair in either order, although `isFromTheSameActor` alone
does not: it reads the kind of its second argument only, and tells an anonymous
whisper after an anonymous in-character message of one author from the same two
messages in the other order. -/
theorem C19_continuation_symmetric :
    (∀ a b : ChatMessage,
      isContinuationFromPreviousMessage a b = isContinuationFromPreviousMessage b a)
    ∧ isFromTheSameActor
        (sampleMessage "m1" CHAT_MESSAGE_TYPES.IC none none "u1" (some []) none).data
        (sampleMessage "m2" CHAT_MESSAGE_TYPES.WHISPER none none "u1" (some []) none).data
      ≠ isFromTheSameActor
        (sampleMessage "m2" CHAT_MESSAGE_TYPES.WHISPER none none "u1" (some []) none).data
        (sampleMessage "m1" CHAT_MESSAGE_TYPES.IC none none "u1" (some []) none).data := by
  constructor
  · intro a b
    unfold isContinuationFromPreviousMessage
    simp only []
    rw [sameWhisperRecipients_comm a b]
    by_cases hkind : a.data.type = b.data.type
    · rw [isFromTheSameActor_comm a.data b.data hkind,
        show decide (a.data.type = b.data.type) = decide (b.data.type = a.data.type)
          from decide_eq_decide.mpr eq_comm]
    · have hkind2 : ¬ b.data.type = a.data.type := fun h => hkind h.symm
      simp [hkind, hkind2]
  · decide

/-- A whisper of token `t1` and a whisper of token `t2`, in both orders. -/
theorem C19_continuation_symmetric_witness :
    isContinuationFromPreviousMessage
      (sampleMessage "m1" CHAT_MESSAGE_TYPES.WHISPER (some "t1") (some "Bob") "u1"
        (some ["u2"]) none)
      (sampleMessage "m2" CHAT_MESSAGE_TYPES.WHISPER (some "t2") (some "Bob") "u1"
        (some ["u2"]) (some ["Alice"]))
    = isContinuationFromPreviousMessage
      (sampleMessage "m2" CHAT_MESSAGE_TYPES.WHISPER (some "t2") (some "Bob") "u1"
        (some ["u2"]) (some ["Alice"]))
      (sampleMessage "m1" CHAT_MESSAGE_TYPES.WHISPER (some "t1") (some "Bob") "u1"
        (some ["u2"]) none) :=
  C19_continuation_symmetric.1 _ _

/-- C20: `isContinuationFromPreviousMessage` is not transitive. Three whispers of one
speaker to the same recipients, the first with the real targets `[Alice]`, the
second without a real list, the third with the real targets `[Carol]`: the second
continues the first and the third continues the second, but the third does not
continue the first. When all three messages carry a real list, or none does,
transitivity holds. -/
theorem C20_not_transitive :
    (∃ a b c : ChatMessage,
      a.data.type = b.data.type ∧ b.data.type = c.data.type
      ∧ a.data.speaker = b.data.speaker ∧ b.data.speaker = c.data.speaker
      ∧ a.data.user = b.data.user ∧ b.data.user = c.data.user
      ∧ a.data.whisper = b.data.whisper ∧ b.data.whisper = c.data.whisper
      ∧ getRealWhisperTargets b = none
      ∧ (∃ p n, getRealWhisperTargets a = some p ∧ getRealWhisperTargets c = some n ∧ p ≠ n)
      ∧ (isContinuationFromPreviousMessage a b).1 = true
      ∧ (isContinuationFromPreviousMessage b c).1 = true
      ∧ (isContinuationFromPreviousMessage a c).1 = false)
    ∧ (∀ a b c : ChatMessage,
      ((getRealWhisperTargets a ≠ none ∧ getRealWhisperTargets b ≠ none
          ∧ getRealWhisperTargets c ≠ none)
        ∨ (getRealWhisperTargets a = none ∧ getRealWhisperTargets b = none
          ∧ getRealWhisperTargets c = none)) →
      (isContinuationFromPreviousMessage a b).1 = true →
      (isContinuationFromPreviousMessage b c).1 = true →
      (isContinuationFromPreviousMessage a c).1 = true) := by
  constructor
  · refine ⟨sampleMessage "m1" CHAT_MESSAGE_TYPES.WHISPER (some "t1") (some "Bob") "u1"
        (some ["u2"]) (some ["Alice"]),
      sampleMessage "m2" CHAT_MESSAGE_TYPES.WHISPER (some "t1") (some "Bob") "u1"
        (some ["u2"]) none,
      sampleMessage "m3" CHAT_MESSAGE_TYPES.WHISPER (some "t1") (some "Bob") "u1"
        (some ["u2"]) (some ["Carol"]), ?_⟩
    refine ⟨by decide, by decide, by decide, by decide, by decide, by decide, by decide,
      by decide, by decide, ⟨["Alice"], ["Carol"], by decide, by decide, by decide⟩,
      by decide, by decide, by decide⟩
  · intro a b c hreal hab hbc
    simp only [isContinuationFromPreviousMessage, Bool.and_eq_true, decide_eq_true_eq]
      at hab hbc ⊢
    obtain ⟨⟨hactor1, hsame1⟩, hkind1⟩ := hab
    obtain ⟨⟨hactor2, hsame2⟩, hkind2⟩ := hbc
    refine ⟨⟨isFromTheSameActor_trans a.data b.data c.data hkind2 hactor1 hactor2, ?_⟩,
      hkind1.trans hkind2⟩
    revert hsame1 hsame2 hreal
    unfold sameWhisperRecipients
    cases a.data.whisper <;> cases b.data.whisper <;> cases c.data.whisper <;>
      cases getRealWhisperTargets a <;> cases getRealWhisperTargets b <;>
      cases getRealWhisperTargets c <;> simp [arrayEquals] <;>
      intros <;> simp_all

/-- Three whispers of one speaker to the same recipients that all carry the real
targets `[Alice]`: the third continues the first. -/
theorem C20_not_transitive_witness :
    (isContinuationFromPreviousMessage
      (sampleMessage "m1" CHAT_MESSAGE_TYPES.WHISPER (some "t1") (some "Bob") "u1"
        (some ["u2"]) (some ["Alice"]))
      (sampleMessage "m3" CHAT_MESSAGE_TYPES.WHISPER (some "t1") (some "Bob") "u1"
        (some ["u2"]) (some ["Alice"]))).1 = true :=
  C20_not_transitive.2
    (sampleMessage "m1" CHAT_MESSAGE_TYPES.WHISPER (some "t1") (some "Bob") "u1"
      (some ["u2"]) (some ["Alice"]))
    (sampleMessage "m2" CHAT_MESSAGE_TYPES.WHISPER (some "t1") (some "Bob") "u1"
      (some ["u2"]) (some ["Alice"]))
    (sampleMessage "m3" CHAT_MESSAGE_TYPES.WHISPER (some "t1") (some "Bob") "u1"
      (some ["u2"]) (some ["Alice"]))
    (Or.inl ⟨by decide, by decide, by decide⟩) (by decide) (by decide)

end Bugvolution
